import Mathlib

/-!
# Verification of the ProjectSnow condition/forecast ingestion pipeline

A shallow embedding, in Lean 4, of the scraping / weather-normalization core
of the repository:

* `src/lib/scraper/skiresortinfo.ts` (and its copy `scraper/src/scraper.ts`):
  the skiresort.info scraper — `parseConditions`, `parseResortInfo`,
  `parseLiftDetails`, `scrapeResortConditions`;
* `src/lib/snotel/client.ts` (multi-model weather part): `cmToInches`,
  `aggregateHourlyToDaily`, `fetchGFSForecast` / `fetchECMWFForecast` /
  `fetchHRRRForecast` / `fetchHistoricalSnowfall`, `fetchAllModels`;
* `src/lib/weather/transform.ts` and `src/lib/weather/client.ts`:
  `transformHourlyForecasts` and the forecast request parameters;
* the season-snowfall API routes: `percentOfLastSeason`;
* `scraper/src/index.ts`: the orchestrator `runFullScrape`;
* the snow-depth fallback module: `getSnowDepthFallback`.

Modelling conventions.  JavaScript numbers are embedded as `ℚ` (the pipeline
only adds, divides by constants and rounds; none of the verified claims is
about binary floating-point representation).  `Math.round` becomes `jsRound`
(round half up, `⌊x + 1/2⌋`).  JavaScript `null`/`undefined` become `none`
(`parseInt`/`parseFloat` return an `Option`, `none` standing for `NaN`; on
every embedded path the parsed text contains a digit, so `NaN` never actually
arises).  `fetch` outcomes are passed in as explicit data (an `Option String`
page body, or a `FetchOutcome`), so an `async` source function becomes a
total Lean function of its fetch results; totality of the Lean function
models the source's "never throws past its boundary" behaviour, whose
`try`/`catch` structure is reproduced in the data flow.  JavaScript
regular-expression matching is embedded by a small backtracking engine
(`RE`, `reFirstMatch`) whose result ordering reproduces the backtracking
priority of the JS engine (leftmost start position; within a position:
alternation left first, greedy quantifiers longest first, lazy quantifiers
shortest first); each regex literal of the source is transcribed into an
`RE` value next to the parser that uses it.
-/

namespace ProjectSnow

/-! ## Numeric helpers -/

/-- Embeds `Math.round` of JavaScript on rationals: round half toward +∞. -/
def jsRound (x : ℚ) : ℤ := ⌊x + 1/2⌋

/-- Embeds `Math.round(x * 100) / 100`, the two-decimal rounding used for inches. -/
def round2 (x : ℚ) : ℚ := (jsRound (x * 100) : ℚ) / 100

/-- From `src/lib/snotel/client.ts` (multi-model part) and
`src/lib/weather/multi-model-hourly-client.ts`:
`function cmToInches(cm) { return cm / 2.54; }` — no rounding in the
converter itself; call sites round. -/
def cmToInches (cm : ℚ) : ℚ := cm / 2.54

/-- From `src/lib/weather/transform.ts` and the multi-model hourly client:
`Math.round(meters * 3.28084)`. -/
def metersToFeet (meters : ℚ) : ℤ := jsRound (meters * 3.28084)

/-- From the season-snowfall API routes (`percentOfLastSeason`):
`lastSeasonToDateTotal > 0 ? Math.round((currentTotal / lastSeasonToDateTotal) * 100) : 0`. -/
def percentOfLastSeason (currentTotal lastSeasonToDateTotal : ℚ) : ℤ :=
  if 0 < lastSeasonToDateTotal then jsRound (currentTotal / lastSeasonToDateTotal * 100)
  else 0

/-! ## Character and string helpers -/

/-- ASCII lower-casing, for the `/i` flag on the source's regexes and for
`.toLowerCase()`. -/
def asciiLower (c : Char) : Char :=
  if 'A' ≤ c ∧ c ≤ 'Z' then Char.ofNat (c.toNat + 32) else c

/-- The `\d` class of JS regexes: exactly `[0-9]`. -/
def isDigitCh (c : Char) : Bool := '0' ≤ c && c ≤ '9'

/-- The `\s` class of JS regexes (the ASCII part, plus NBSP; the embedded
pages contain no other Unicode space). -/
def isWsCh (c : Char) : Bool :=
  c = ' ' || c = '\t' || c = '\n' || c = '\r' ||
  c.toNat = 11 || c.toNat = 12 || c.toNat = 0xA0

/-- Embeds `a.startsWith(b)` on character lists (case-sensitive). -/
def listStartsWith : List Char → List Char → Bool
  | _, [] => true
  | [], _ :: _ => false
  | c :: cs, p :: ps => c = p && listStartsWith cs ps

/-- Embeds `hay.includes(pat)` of JS on character lists: `pat` occurs contiguously. -/
def listContainsSub (hay pat : List Char) : Bool :=
  match hay with
  | [] => listStartsWith [] pat
  | _ :: rest => listStartsWith hay pat || listContainsSub rest pat

/-- Embeds `s.includes(pat)` of JS: substring containment, case-sensitive. -/
def strIncludes (s pat : String) : Bool := listContainsSub s.data pat.data

/-- Embeds `String.prototype.trim()` (ASCII whitespace suffices here). -/
def jsTrim (s : String) : String :=
  ⟨(s.data.dropWhile isWsCh).reverse.dropWhile isWsCh |>.reverse⟩

/-- Numeric value of a list of decimal digits. -/
def digitsVal (l : List Char) : ℕ := l.foldl (fun a c => a * 10 + (c.toNat - 48)) 0

/-- Embeds `parseInt(s)` of JS on the strings this code feeds it (no sign, no radix
prefix): the longest digit prefix, `none` for `NaN`. -/
def jsParseInt (s : String) : Option ℤ :=
  let ds := s.data.takeWhile isDigitCh
  if ds.isEmpty then none else some (digitsVal ds)

/-- Embeds `parseFloat(s)` of JS on the strings this code feeds it (digits, commas
and dots only; no sign, no exponent): the longest `digits[.digits]` prefix,
`none` for `NaN`. -/
def jsParseFloat (s : String) : Option ℚ :=
  let l := s.data
  let intPart := l.takeWhile isDigitCh
  let rest := l.drop intPart.length
  match rest with
  | '.' :: r2 =>
    let frac := r2.takeWhile isDigitCh
    if intPart.isEmpty && frac.isEmpty then none
    else some ((digitsVal intPart : ℚ) + (digitsVal frac : ℚ) / (10 : ℚ) ^ frac.length)
  | _ => if intPart.isEmpty then none else some (digitsVal intPart)

/-! ## A small JS-regex engine

Only the constructs that occur in the source's regex literals are embedded:
single-character classes, (case-insensitive) literals, concatenation,
alternation, greedy `?`, greedy `*`, lazy `*?`, and numbered capture groups
(`+` is derived).  `reRun` returns the list of all ways a pattern can match a
prefix of the input, ordered by JS backtracking priority, so the head of the
list at the first succeeding start position is exactly the JS match.  The
`fuel` argument only bounds quantifier unfoldings; every quantified
subexpression below is a character class, so each unfolding consumes at
least one input character (enforced by the `rc.1.length < s.length` filter,
which is also how the JS engine breaks empty quantifier iterations), and
each quantifier gets its own fuel budget of `length + 1`, strictly more
unfoldings than it can make — the fuel-exhausted base case is
unreachable. -/

/-- Greedy `*`: longest iteration sequences first, then the empty match;
`runA` matches one iteration of the quantified subexpression. -/
def starGAux (runA : List Char → Caps → List (List Char × Caps)) :
    ℕ → List Char → Caps → List (List Char × Caps)
  | 0, s, caps => [(s, caps)]
  | f + 1, s, caps =>
    (((runA s caps).filter fun rc => rc.1.length < s.length).flatMap
      fun rc => starGAux runA f rc.1 rc.2) ++ [(s, caps)]

/-- Lazy `*?`: the empty match first, then longer iteration sequences. -/
def starLAux (runA : List Char → Caps → List (List Char × Caps)) :
    ℕ → List Char → Caps → List (List Char × Caps)
  | 0, s, caps => [(s, caps)]
  | f + 1, s, caps =>
    (s, caps) :: (((runA s caps).filter fun rc => rc.1.length < s.length).flatMap
      fun rc => starLAux runA f rc.1 rc.2)

/-- Abstract syntax of the embedded regexes. -/
inductive RE where
  | eps : RE
  | cls : (Char → Bool) → RE
  | lit : List Char → RE
  | seq : RE → RE → RE
  | alt : RE → RE → RE
  | opt : RE → RE
  | starG : RE → RE
  | starL : RE → RE
  | group : ℕ → RE → RE

/-- Capture list: group index ↦ captured characters (most recent first). -/
abbrev Caps := List (ℕ × List Char)

/-- Case-insensitive literal match: `some rest` on success. -/
def litMatch : List Char → List Char → Option (List Char)
  | [], s => some s
  | _ :: _, [] => none
  | p :: ps, c :: cs => if asciiLower c = asciiLower p then litMatch ps cs else none

/-- All ways `re` can match a prefix of `s`, as `(remaining input, captures)`
pairs in JS backtracking priority order. -/
def reRun (fuel : ℕ) : RE → List Char → Caps → List (List Char × Caps)
  | .eps, s, caps => [(s, caps)]
  | .cls p, s, caps =>
    match s with
    | [] => []
    | c :: rest => if p c then [(rest, caps)] else []
  | .lit l, s, caps =>
    match litMatch l s with
    | some rest => [(rest, caps)]
    | none => []
  | .seq a b, s, caps => (reRun fuel a s caps).flatMap fun rc => reRun fuel b rc.1 rc.2
  | .alt a b, s, caps => reRun fuel a s caps ++ reRun fuel b s caps
  | .opt a, s, caps => reRun fuel a s caps ++ [(s, caps)]
  | .group n a, s, caps =>
    (reRun fuel a s caps).map fun rc =>
      (rc.1, (n, s.take (s.length - rc.1.length)) :: rc.2)
  | .starG a, s, caps => starGAux (reRun fuel a) fuel s caps
  | .starL a, s, caps => starLAux (reRun fuel a) fuel s caps

/-- The JS match of `re` anchored at the start of `s`:
`(matched text, captures, input after the match)`. -/
def reMatchHere (re : RE) (s : List Char) :
    Option (List Char × Caps × List Char) :=
  match reRun (s.length + 1) re s [] with
  | [] => none
  | rc :: _ => some (s.take (s.length - rc.1.length), rc.2, rc.1)

/-- The JS match of `re` at the leftmost succeeding position of `s`. -/
def reSearch (re : RE) (s : List Char) :
    Option (List Char × Caps × List Char) :=
  match s with
  | [] => reMatchHere re []
  | _ :: rest =>
    match reMatchHere re s with
    | some m => some m
    | none => reSearch re rest

/-- Embeds `str.match(re)` of JS (no `g` flag): `none`, or the capture list of the
first match. -/
def reFirstMatch (re : RE) (s : String) : Option Caps :=
  (reSearch re s.data).map fun m => m.2.1

/-- Embeds `str.matchAll(re)` of JS (`g` flag): capture lists of all successive
matches.  Every pattern it is used on consumes at least one character per
match, so scanning resumes after each match; the fuel (`length + 1`) bounds
the number of matches. -/
def reAllMatchesAux : ℕ → RE → List Char → List Caps
  | 0, _, _ => []
  | f + 1, re, s =>
    match reSearch re s with
    | none => []
    | some (full, caps, rest) =>
      if full.isEmpty then [caps] else caps :: reAllMatchesAux f re rest

/-- All matches of `re` in `s`, in order. -/
def reAllMatches (re : RE) (s : String) : List Caps :=
  reAllMatchesAux (s.length + 1) re s.data

/-- Embeds `match[n]` of JS: the captured text of group `n` (`""` if absent; every
embedded access is to a group that participated in the match). -/
def capStr (caps : Caps) (n : ℕ) : String := ⟨(caps.lookup n).getD []⟩

/-! Combinators used to transcribe the source's regex literals. -/

/-- Case-insensitive literal (all the source's regexes carry `/i`, and the
case-sensitive ones contain no letters). -/
def istr (s : String) : RE := .lit s.data

/-- Concatenation of a list of pieces. -/
def reCat (l : List RE) : RE := l.foldr .seq .eps

/-- Embeds `\d` -/
def reD : RE := .cls isDigitCh

/-- Embeds `\d+` -/
def reDplus : RE := .seq reD (.starG reD)

/-- Embeds `\s` -/
def reWs : RE := .cls isWsCh

/-- Embeds `\s*` -/
def reWsStar : RE := .starG reWs

/-- Embeds `.` (any character but a line terminator) -/
def reDot : RE := .cls fun c => c ≠ '\n' && c ≠ '\r'

/-- Embeds `.*?` -/
def reDotLazy : RE := .starL reDot

/-- Embeds `[\s\S]*?` -/
def reAnyLazy : RE := .starL (.cls fun _ => true)

/-- Embeds `[\d.]+` -/
def reNumDot : RE :=
  let c : RE := .cls fun c => isDigitCh c || c = '.'
  .seq c (.starG c)

/-- Embeds `[\d,]+` -/
def reNumComma : RE :=
  let c : RE := .cls fun c => isDigitCh c || c = ','
  .seq c (.starG c)

/-- Embeds `[-–]` -/
def reDash : RE := .cls fun c => c = '-' || c = '–'

/-- Embeds `[:\s]*` (greedy) -/
def reColonWsStar : RE := .starG (.cls fun c => c = ':' || isWsCh c)

/-- Embeds `[\s:]*?` (lazy) -/
def reWsColonLazy : RE := .starL (.cls fun c => isWsCh c || c = ':')

/-- Embeds `[- ]?` -/
def reDashSpaceOpt : RE := .opt (.cls fun c => c = '-' || c = ' ')

/-- Embeds `(?:ski\s*)?` -/
def reSkiOpt : RE := .opt (reCat [istr "ski", reWsStar])

/-! ## Scraper data model (`src/lib/scraper/skiresortinfo.ts`)

`parseInt`-populated fields are `Option ℤ`, `parseFloat`-populated fields are
`Option ℚ`; a field the function never assigns keeps its initial `none`. -/

/-- Embeds `interface ScrapedConditions` of the scraper. -/
structure ScrapedConditions where
  snowDepthSummit : Option ℤ
  snowDepthBase : Option ℤ
  newSnow24h : Option ℤ
  newSnow48h : Option ℤ
  newSnow7d : Option ℤ
  liftsOpen : Option ℤ
  liftsTotal : Option ℤ
  runsOpen : Option ℤ
  runsTotal : Option ℤ
  terrainOpenKm : Option ℚ
  terrainTotalKm : Option ℚ
  terrainOpenPct : Option ℤ
  isOpen : Bool
  seasonStart : Option String
  seasonEnd : Option String
  lastSnowfall : Option String
  conditions : Option String
  firstChair : Option String
  lastChair : Option String
deriving DecidableEq, Repr

/-- Embeds `interface ScrapedResortInfo` of the scraper. -/
structure ScrapedResortInfo where
  elevationBase : Option ℤ
  elevationSummit : Option ℤ
  verticalDrop : Option ℤ
  terrainTotalKm : Option ℚ
  terrainEasyKm : Option ℚ
  terrainIntermediateKm : Option ℚ
  terrainDifficultKm : Option ℚ
  terrainEasyPct : Option ℤ
  terrainIntermediatePct : Option ℤ
  terrainDifficultPct : Option ℤ
  liftsTotal : Option ℤ
  liftsGondolas : Option ℤ
  liftsChairliftsHighSpeed : Option ℤ
  liftsChairliftsFixedGrip : Option ℤ
  liftsSurface : Option ℤ
  liftsCarpets : Option ℤ
  runsTotal : Option ℤ
deriving DecidableEq, Repr

/-- Embeds `parseInt(match[i].replace(/,/g, ""))`: strip every comma, then parse. -/
def jsParseIntStripCommas (s : String) : Option ℤ :=
  jsParseInt ⟨s.data.filter fun c => c ≠ ','⟩

/-- JS falsiness of a `number | null` field: `null` (and `NaN`, conflated
with `none` here — see the header) and `0` are falsy. -/
def jsFalsyInt (v : Option ℤ) : Bool := v = none || v = some 0

/-! ### Regexes of `parseConditions` -/

/-- Embeds `/(?:summit|top).*?(\d+)\s*cm/i` -/
def reSummitSnow1 : RE :=
  reCat [.alt (istr "summit") (istr "top"), reDotLazy, .group 1 reDplus, reWsStar, istr "cm"]

/-- Embeds `/(\d+)\s*cm.*?(?:summit|top)/i` -/
def reSummitSnow2 : RE :=
  reCat [.group 1 reDplus, reWsStar, istr "cm", reDotLazy, .alt (istr "summit") (istr "top")]

/-- Embeds `/(?:base|valley|bottom).*?(\d+)\s*cm/i` -/
def reBaseSnow1 : RE :=
  reCat [.alt (istr "base") (.alt (istr "valley") (istr "bottom")), reDotLazy,
    .group 1 reDplus, reWsStar, istr "cm"]

/-- Embeds `/(\d+)\s*cm.*?(?:base|valley|bottom)/i` -/
def reBaseSnow2 : RE :=
  reCat [.group 1 reDplus, reWsStar, istr "cm", reDotLazy,
    .alt (istr "base") (.alt (istr "valley") (istr "bottom"))]

/-- Embeds `/(\d+)\s*(?:of|\/)\s*(\d+)\s*lifts?/i` -/
def reLiftsOf : RE :=
  reCat [.group 1 reDplus, reWsStar, .alt (istr "of") (istr "/"), reWsStar,
    .group 2 reDplus, reWsStar, istr "lift", .opt (istr "s")]

/-- Embeds `/([\d.]+)\s*(?:of|\/)\s*([\d.]+)\s*km/i` -/
def reTerrainKm : RE :=
  reCat [.group 1 reNumDot, reWsStar, .alt (istr "of") (istr "/"), reWsStar,
    .group 2 reNumDot, reWsStar, istr "km"]

/-- Embeds `/(\d+)\s*%\s*open/i` -/
def reTerrainPct : RE :=
  reCat [.group 1 reDplus, reWsStar, istr "%", reWsStar, istr "open"]

/-- Embeds `\d{4}-\d{2}-\d{2}` -/
def reIsoDate : RE :=
  reCat [reD, reD, reD, reD, istr "-", reD, reD, istr "-", reD, reD]

/-- Embeds `/(\d{4}-\d{2}-\d{2})\s*(?:to|[-–])\s*(\d{4}-\d{2}-\d{2})/` -/
def reSeason : RE :=
  reCat [.group 1 reIsoDate, reWsStar, .alt (istr "to") reDash, reWsStar, .group 2 reIsoDate]

/-- Embeds `\d{1,2}:\d{2}\s*(?:AM|PM)?` -/
def reClockTime : RE :=
  reCat [reD, .opt reD, istr ":", reD, reD, reWsStar, .opt (.alt (istr "AM") (istr "PM"))]

/-- Embeds `/(\d{1,2}:\d{2}\s*(?:AM|PM)?)\s*[-–]\s*(\d{1,2}:\d{2}\s*(?:AM|PM)?)/i` -/
def reHours : RE :=
  reCat [.group 1 reClockTime, reWsStar, reDash, reWsStar, .group 2 reClockTime]

/-- Embeds `/(?:first\s*chair|opens?)[:\s]*(\d{1,2}:\d{2}\s*(?:AM|PM)?)/i` -/
def reFirstChair : RE :=
  reCat [.alt (reCat [istr "first", reWsStar, istr "chair"]) (reCat [istr "open", .opt (istr "s")]),
    reColonWsStar, .group 1 reClockTime]

/-- Embeds `/(?:last\s*chair|closes?)[:\s]*(\d{1,2}:\d{2}\s*(?:AM|PM)?)/i` -/
def reLastChair : RE :=
  reCat [.alt (reCat [istr "last", reWsStar, istr "chair"]) (reCat [istr "close", .opt (istr "s")]),
    reColonWsStar, .group 1 reClockTime]

/-- The "resort open" heuristic of `parseConditions`:
`html.includes("resort is open") || html.includes("ski resort is open") ||
(html.includes("lifts") && html.includes(" of ") && !html.includes("0 of"))`. -/
def conditionsIsOpen (html : String) : Bool :=
  strIncludes html "resort is open" || strIncludes html "ski resort is open" ||
  (strIncludes html "lifts" && strIncludes html " of " && !(strIncludes html "0 of"))

/-- Summit snow depth battery of `parseConditions`. -/
def conditionsSummitSnow (html : String) : Option ℤ :=
  match reFirstMatch reSummitSnow1 html <|> reFirstMatch reSummitSnow2 html with
  | some m => jsParseInt (capStr m 1)
  | none => none

/-- Base snow depth battery of `parseConditions`. -/
def conditionsBaseSnow (html : String) : Option ℤ :=
  match reFirstMatch reBaseSnow1 html <|> reFirstMatch reBaseSnow2 html with
  | some m => jsParseInt (capStr m 1)
  | none => none

/-- Embeds `"18 of 34 lifts"` battery of `parseConditions`: `(liftsOpen, liftsTotal)`. -/
def conditionsLifts (html : String) : Option ℤ × Option ℤ :=
  match reFirstMatch reLiftsOf html with
  | some m => (jsParseInt (capStr m 1), jsParseInt (capStr m 2))
  | none => (none, none)

/-- Embeds `"144.4 of 234 km"` battery of `parseConditions`: `(open, total)`. -/
def conditionsTerrainKm (html : String) : Option ℚ × Option ℚ :=
  match reFirstMatch reTerrainKm html with
  | some m => (jsParseFloat (capStr m 1), jsParseFloat (capStr m 2))
  | none => (none, none)

/-- Embeds `"62% open"` battery of `parseConditions`. -/
def conditionsTerrainPct (html : String) : Option ℤ :=
  match reFirstMatch reTerrainPct html with
  | some m => jsParseInt (capStr m 1)
  | none => none

/-- Season date range battery of `parseConditions`: `(start, end)`. -/
def conditionsSeason (html : String) : Option String × Option String :=
  match reFirstMatch reSeason html with
  | some m => (some (capStr m 1), some (capStr m 2))
  | none => (none, none)

/-- Operating hours battery of `parseConditions`: the combined
`"8:30 - 4:00"` pattern first, else the separate first/last chair patterns:
`(firstChair, lastChair)`. -/
def conditionsHours (html : String) : Option String × Option String :=
  match reFirstMatch reHours html with
  | some m => (some (jsTrim (capStr m 1)), some (jsTrim (capStr m 2)))
  | none =>
    (match reFirstMatch reFirstChair html with
     | some m => some (jsTrim (capStr m 1))
     | none => none,
     match reFirstMatch reLastChair html with
     | some m => some (jsTrim (capStr m 1))
     | none => none)

/-- Embeds `function parseConditions(html)` of the scraper.  The source initialises
an all-null / closed record and runs one independent regex battery per field
group (no battery reads a field another battery writes), so the record is
assembled here from one helper per field group; fields no battery assigns
(`newSnow*`, `runs*`, `lastSnowfall`, `conditions`) keep their initial
`null`. -/
def parseConditions (html : String) : ScrapedConditions :=
  { snowDepthSummit := conditionsSummitSnow html
    snowDepthBase := conditionsBaseSnow html
    newSnow24h := none
    newSnow48h := none
    newSnow7d := none
    liftsOpen := (conditionsLifts html).1
    liftsTotal := (conditionsLifts html).2
    runsOpen := none
    runsTotal := none
    terrainOpenKm := (conditionsTerrainKm html).1
    terrainTotalKm := (conditionsTerrainKm html).2
    terrainOpenPct := conditionsTerrainPct html
    isOpen := conditionsIsOpen html
    seasonStart := (conditionsSeason html).1
    seasonEnd := (conditionsSeason html).2
    lastSnowfall := none
    conditions := none
    firstChair := (conditionsHours html).1
    lastChair := (conditionsHours html).2 }

/-! ### Regexes of `parseResortInfo` -/

/-- Embeds `/([\d,]+)\s*m\s*[-–]\s*([\d,]+)\s*m\s*\((?:Difference|Diff\.?)\s*([\d,]+)\s*m\)/i` -/
def reElevation : RE :=
  reCat [.group 1 reNumComma, reWsStar, istr "m", reWsStar, reDash, reWsStar,
    .group 2 reNumComma, reWsStar, istr "m", reWsStar, istr "(",
    .alt (istr "Difference") (reCat [istr "Diff", .opt (istr ".")]), reWsStar,
    .group 3 reNumComma, reWsStar, istr "m", istr ")"]

/-- Embeds `/(?:total|slopes?)[\s:]*?([\d.]+)\s*km/i` -/
def reTotalTerrain1 : RE :=
  reCat [.alt (istr "total") (reCat [istr "slope", .opt (istr "s")]),
    reWsColonLazy, .group 1 reNumDot, reWsStar, istr "km"]

/-- Embeds `/([\d.]+)\s*km\s*(?:of\s*)?(?:slopes?|pistes?|runs?|terrain)/i` -/
def reTotalTerrain2 : RE :=
  reCat [.group 1 reNumDot, reWsStar, istr "km", reWsStar,
    .opt (reCat [istr "of", reWsStar]),
    .alt (reCat [istr "slope", .opt (istr "s")])
      (.alt (reCat [istr "piste", .opt (istr "s")])
        (.alt (reCat [istr "run", .opt (istr "s")]) (istr "terrain")))]

/-- Embeds `/<tier>[\s\S]*?([\d.]+)\s*km[\s\S]*?\((\d+)\s*%\)/i` for a difficulty
tier word. -/
def reTierTerrain (tier : String) : RE :=
  reCat [istr tier, reAnyLazy, .group 1 reNumDot, reWsStar, istr "km", reAnyLazy,
    istr "(", .group 2 reDplus, reWsStar, istr "%", istr ")"]

/-- Embeds `/(\d+)\s*\/\s*(\d+)\s*(?:ski\s*)?lifts/i` -/
def reLiftsOpenTotal : RE :=
  reCat [.group 1 reDplus, reWsStar, istr "/", reWsStar, .group 2 reDplus,
    reWsStar, reSkiOpt, istr "lifts"]

/-- Embeds `/number\s*of\s*(?:ski\s*)?lifts[:\s]*(\d+)/i` -/
def reLiftsLabeled1 : RE :=
  reCat [istr "number", reWsStar, istr "of", reWsStar, reSkiOpt, istr "lifts",
    reColonWsStar, .group 1 reDplus]

/-- Embeds `/(?:ski\s*)?lifts[:\s]*(\d+)/i` -/
def reLiftsLabeled2 : RE :=
  reCat [reSkiOpt, istr "lifts", reColonWsStar, .group 1 reDplus]

/-- Embeds `/(\d+)\s*(?:circulating\s*ropeway|gondola\s*lift)/i` -/
def reGondolaInfo1 : RE :=
  reCat [.group 1 reDplus, reWsStar,
    .alt (reCat [istr "circulating", reWsStar, istr "ropeway"])
      (reCat [istr "gondola", reWsStar, istr "lift"])]

/-- Embeds `/(\d+)\s*×?\s*(?:\d+pers\.\s*)?gondola/i` -/
def reGondolaInfo2 : RE :=
  reCat [.group 1 reDplus, reWsStar, .opt (istr "×"), reWsStar,
    .opt (reCat [reDplus, istr "pers.", reWsStar]), istr "gondola"]

/-- Embeds `/(\d+)\s*\d+pers\.\s*high\s*speed\s*chairlift\s*\(detachable\)/gi` -/
def reHighSpeedChair : RE :=
  reCat [.group 1 reDplus, reWsStar, reDplus, istr "pers.", reWsStar, istr "high",
    reWsStar, istr "speed", reWsStar, istr "chairlift", reWsStar, istr "(detachable)"]

/-- Embeds `/(\d+)\s*\d+pers\.\s*chairlift\s*\(fixed[- ]?grip\)/gi` -/
def reFixedGripChair : RE :=
  reCat [.group 1 reDplus, reWsStar, reDplus, istr "pers.", reWsStar,
    istr "chairlift", reWsStar, istr "(fixed", reDashSpaceOpt, istr "grip)"]

/-- Embeds `t[- ]?bar` -/
def reTBar : RE := reCat [istr "t", reDashSpaceOpt, istr "bar"]

/-- Embeds `/(\d+)\s*t[- ]?bar\s*lift\/platter\/button\s*lift/i` -/
def reSurfaceInfo1 : RE :=
  reCat [.group 1 reDplus, reWsStar, reTBar, reWsStar, istr "lift/platter/button",
    reWsStar, istr "lift"]

/-- Embeds `/(\d+)\s*(?:surface\s*lift|t[- ]?bar|platter|button\s*lift)/i` -/
def reSurfaceInfo2 : RE :=
  reCat [.group 1 reDplus, reWsStar,
    .alt (reCat [istr "surface", reWsStar, istr "lift"])
      (.alt reTBar (.alt (istr "platter") (reCat [istr "button", reWsStar, istr "lift"])))]

/-- Embeds `/(\d+)\s*people\s*mover\/moving\s*carpet/i` -/
def reCarpetInfo1 : RE :=
  reCat [.group 1 reDplus, reWsStar, istr "people", reWsStar, istr "mover/moving",
    reWsStar, istr "carpet"]

/-- Embeds `/(\d+)\s*(?:moving\s*carpet|magic\s*carpet|people\s*mover|sunkid)/i` -/
def reCarpetInfo2 : RE :=
  reCat [.group 1 reDplus, reWsStar,
    .alt (reCat [istr "moving", reWsStar, istr "carpet"])
      (.alt (reCat [istr "magic", reWsStar, istr "carpet"])
        (.alt (reCat [istr "people", reWsStar, istr "mover"]) (istr "sunkid")))]

/-- Embeds `/(\d+)\s*(?:ski\s*)?(?:runs|trails|pistes)/i` -/
def reRunsTotal : RE :=
  reCat [.group 1 reDplus, reWsStar, reSkiOpt,
    .alt (istr "runs") (.alt (istr "trails") (istr "pistes"))]

/-- Elevation battery of `parseResortInfo`: `(base, summit, drop)`, commas
stripped globally before `parseInt`. -/
def infoElevation (html : String) : Option ℤ × Option ℤ × Option ℤ :=
  match reFirstMatch reElevation html with
  | some m => (jsParseIntStripCommas (capStr m 1), jsParseIntStripCommas (capStr m 2),
               jsParseIntStripCommas (capStr m 3))
  | none => (none, none, none)

/-- Total-terrain battery of `parseResortInfo`. -/
def infoTotalTerrain (html : String) : Option ℚ :=
  match reFirstMatch reTotalTerrain1 html <|> reFirstMatch reTotalTerrain2 html with
  | some m => jsParseFloat (capStr m 1)
  | none => none

/-- Difficulty-tier battery of `parseResortInfo`: `(km, %)`, both-or-nothing
(the single regex must match both the distance and the percentage). -/
def infoTier (tier : String) (html : String) : Option ℚ × Option ℤ :=
  match reFirstMatch (reTierTerrain tier) html with
  | some m => (jsParseFloat (capStr m 1), jsParseInt (capStr m 2))
  | none => (none, none)

/-- Embeds `liftsTotal` battery of `parseResortInfo`: the `"X / Y lifts"` open/total
pattern (group 2) first; else the labeled `"number of lifts: N"` /
`"lifts: N"` patterns (group 1); else the initial `null`. -/
def infoLiftsTotal (html : String) : Option ℤ :=
  match reFirstMatch reLiftsOpenTotal html with
  | some m => jsParseInt (capStr m 2)
  | none =>
    match reFirstMatch reLiftsLabeled1 html <|> reFirstMatch reLiftsLabeled2 html with
    | some m => jsParseInt (capStr m 1)
    | none => none

/-- Gondola battery of `parseResortInfo`. -/
def infoGondolas (html : String) : Option ℤ :=
  match reFirstMatch reGondolaInfo1 html <|> reFirstMatch reGondolaInfo2 html with
  | some m => jsParseInt (capStr m 1)
  | none => none

/-- High-speed chairlift battery of `parseResortInfo`: the `matchAll` sum
over every `"X Npers. high speed chairlift (detachable)"` occurrence (every
group-1 capture is a nonempty digit string, so the `parseInt` never fails and
`getD 0` is unreachable). -/
def infoHighSpeedSum (html : String) : ℤ :=
  ((reAllMatches reHighSpeedChair html).map fun m => (jsParseInt (capStr m 1)).getD 0).sum

/-- Fixed-grip chairlift battery of `parseResortInfo` (`matchAll` sum). -/
def infoFixedGripSum (html : String) : ℤ :=
  ((reAllMatches reFixedGripChair html).map fun m => (jsParseInt (capStr m 1)).getD 0).sum

/-- Surface-lift battery of `parseResortInfo`. -/
def infoSurface (html : String) : Option ℤ :=
  match reFirstMatch reSurfaceInfo1 html <|> reFirstMatch reSurfaceInfo2 html with
  | some m => jsParseInt (capStr m 1)
  | none => none

/-- Carpet battery of `parseResortInfo`. -/
def infoCarpets (html : String) : Option ℤ :=
  match reFirstMatch reCarpetInfo1 html <|> reFirstMatch reCarpetInfo2 html with
  | some m => jsParseInt (capStr m 1)
  | none => none

/-- Runs battery of `parseResortInfo`. -/
def infoRuns (html : String) : Option ℤ :=
  match reFirstMatch reRunsTotal html with
  | some m => jsParseInt (capStr m 1)
  | none => none

/-- Embeds `function parseResortInfo(html)` of the scraper.  As with
`parseConditions`, the source initialises an all-null record and runs one
independent battery per field group, so the record is assembled from one
helper per field group (the `if (total > 0)` guards on the `matchAll` sums
are reproduced inline). -/
def parseResortInfo (html : String) : ScrapedResortInfo :=
  { elevationBase := (infoElevation html).1
    elevationSummit := (infoElevation html).2.1
    verticalDrop := (infoElevation html).2.2
    terrainTotalKm := infoTotalTerrain html
    terrainEasyKm := (infoTier "easy" html).1
    terrainIntermediateKm := (infoTier "intermediate" html).1
    terrainDifficultKm := (infoTier "difficult" html).1
    terrainEasyPct := (infoTier "easy" html).2
    terrainIntermediatePct := (infoTier "intermediate" html).2
    terrainDifficultPct := (infoTier "difficult" html).2
    liftsTotal := infoLiftsTotal html
    liftsGondolas := infoGondolas html
    liftsChairliftsHighSpeed :=
      if infoHighSpeedSum html > 0 then some (infoHighSpeedSum html) else none
    liftsChairliftsFixedGrip :=
      if infoFixedGripSum html > 0 then some (infoFixedGripSum html) else none
    liftsSurface := infoSurface html
    liftsCarpets := infoCarpets html
    runsTotal := infoRuns html }

/-! ### Regexes of `parseLiftDetails` (the dedicated lifts page) -/

/-- Embeds `/circulating\s*ropeway\/gondola\s*lift\s*\((\d+)\)/i` -/
def reGondolaLifts1 : RE :=
  reCat [istr "circulating", reWsStar, istr "ropeway/gondola", reWsStar, istr "lift",
    reWsStar, istr "(", .group 1 reDplus, istr ")"]

/-- Embeds `/gondola\s*lift[^(]*\((\d+)\)/i` -/
def reGondolaLifts2 : RE :=
  reCat [istr "gondola", reWsStar, istr "lift", .starG (.cls fun c => c ≠ '('),
    istr "(", .group 1 reDplus, istr ")"]

/-- Embeds `/,\s*chairlift\s*\((\d+)\)/i` -/
def reChairliftLifts : RE :=
  reCat [istr ",", reWsStar, istr "chairlift", reWsStar, istr "(", .group 1 reDplus, istr ")"]

/-- Embeds `/t[- ]?bar\s*lift\/platter\/button\s*lift\s*\((\d+)\)/i` -/
def reSurfaceLifts : RE :=
  reCat [reTBar, reWsStar, istr "lift/platter/button", reWsStar, istr "lift",
    reWsStar, istr "(", .group 1 reDplus, istr ")"]

/-- Embeds `/people\s*mover\/moving\s*carpet\s*\((\d+)\)/i` -/
def reCarpetLifts1 : RE :=
  reCat [istr "people", reWsStar, istr "mover/moving", reWsStar, istr "carpet",
    reWsStar, istr "(", .group 1 reDplus, istr ")"]

/-- Embeds `/moving\s*carpet\s*\((\d+)\)/i` -/
def reCarpetLifts2 : RE :=
  reCat [istr "moving", reWsStar, istr "carpet", reWsStar, istr "(", .group 1 reDplus, istr ")"]

/-- The component sum `(liftsGondolas || 0) + (liftsChairliftsHighSpeed || 0) +
(liftsChairliftsFixedGrip || 0) + (liftsSurface || 0) + (liftsCarpets || 0)`. -/
def liftComponentTotal (i : ScrapedResortInfo) : ℤ :=
  i.liftsGondolas.getD 0 + i.liftsChairliftsHighSpeed.getD 0 +
  i.liftsChairliftsFixedGrip.getD 0 + i.liftsSurface.getD 0 + i.liftsCarpets.getD 0

/-- Gondola battery of `parseLiftDetails`, falling back to the incoming
main-page value when neither pattern matches (the source only assigns
inside `if (gondolaMatch)`). -/
def liftsPageGondolas (html : String) (prev : Option ℤ) : Option ℤ :=
  match reFirstMatch reGondolaLifts1 html <|> reFirstMatch reGondolaLifts2 html with
  | some m => jsParseInt (capStr m 1)
  | none => prev

/-- Chairlift battery of `parseLiftDetails` (total goes into the high-speed
field, as the source comment explains). -/
def liftsPageChairlifts (html : String) (prev : Option ℤ) : Option ℤ :=
  match reFirstMatch reChairliftLifts html with
  | some m => jsParseInt (capStr m 1)
  | none => prev

/-- Surface-lift battery of `parseLiftDetails`. -/
def liftsPageSurface (html : String) (prev : Option ℤ) : Option ℤ :=
  match reFirstMatch reSurfaceLifts html with
  | some m => jsParseInt (capStr m 1)
  | none => prev

/-- Carpet battery of `parseLiftDetails`. -/
def liftsPageCarpets (html : String) (prev : Option ℤ) : Option ℤ :=
  match reFirstMatch reCarpetLifts1 html <|> reFirstMatch reCarpetLifts2 html with
  | some m => jsParseInt (capStr m 1)
  | none => prev

/-- The first half of `parseLiftDetails`: the four type batteries, each
overwriting its field only on a match. -/
def liftsPageTypes (html : String) (info : ScrapedResortInfo) : ScrapedResortInfo :=
  { info with
    liftsGondolas := liftsPageGondolas html info.liftsGondolas
    liftsChairliftsHighSpeed := liftsPageChairlifts html info.liftsChairliftsHighSpeed
    liftsSurface := liftsPageSurface html info.liftsSurface
    liftsCarpets := liftsPageCarpets html info.liftsCarpets }

/-- Embeds `function parseLiftDetails(html, info)` of the scraper: per-type counts
from the lifts page (each battery overwriting its field only on a match),
then `if (!info.liftsTotal)` — the field is still falsy — set `liftsTotal`
to the component sum when that sum is positive. -/
def parseLiftDetails (html : String) (info : ScrapedResortInfo) : ScrapedResortInfo :=
  let info := liftsPageTypes html info
  if jsFalsyInt info.liftsTotal then
    let componentTotal := liftComponentTotal info
    if componentTotal > 0 then { info with liftsTotal := some componentTotal } else info
  else info

/-- Embeds `scrapeResortConditions` of the scraper, as a function of its two fetch
outcomes.  `primaryPage = none` models a failed main-page fetch (non-2xx
status or a thrown network error, both of which end in `return null`);
`liftsPage = none` models a failed or non-2xx secondary fetch, which the
source catches and ignores. -/
def scrapeResortConditions (primaryPage liftsPage : Option String) :
    Option (ScrapedConditions × ScrapedResortInfo) :=
  match primaryPage with
  | none => none
  | some html =>
    let conditions := parseConditions html
    let info := parseResortInfo html
    let info :=
      match liftsPage with
      | some liftsHtml => parseLiftDetails liftsHtml info
      | none => info
    some (conditions, info)

/-! ## Multi-model weather client (`src/lib/snotel/client.ts`, weather part) -/

/-- One element of the `DailySnowfall[]` payload. -/
structure DailySnowfall where
  date : String
  snowfallInches : ℚ
deriving DecidableEq, Repr

/-- Embeds `times[i].split("T")[0]`: the date portion of an hourly timestamp. -/
def hourlyDate (t : String) : String := ⟨t.data.takeWhile fun c => c ≠ 'T'⟩

/-- Embeds `Map.prototype.set` on the insertion-ordered association list embedding a
JS `Map`: update in place, or append a new key. -/
def mapSet : List (String × ℚ) → String → ℚ → List (String × ℚ)
  | [], k, v => [(k, v)]
  | (k', v') :: rest, k, v =>
    if k' = k then (k, v) :: rest else (k', v') :: mapSet rest k v

/-- Embeds `Map.prototype.get`. -/
def mapGet : List (String × ℚ) → String → Option ℚ
  | [], _ => none
  | (k', v') :: rest, k => if k' = k then some v' else mapGet rest k

/-- The `(times[i], values[i])` sample list the aggregation loop walks:
an out-of-range or `null` value is `none` (the loop's `values[i] || 0` turns
either into `0`). -/
def hourlySamples (times : List String) (values : List (Option ℚ)) :
    List (String × Option ℚ) :=
  times.enum.map fun p => (p.2, (values.get? p.1).join)

/-- One iteration of the aggregation loop:
`dailyMap.set(date, (dailyMap.get(date) || 0) + (values[i] || 0))`. -/
def dailyMapStep (m : List (String × ℚ)) (s : String × Option ℚ) : List (String × ℚ) :=
  let date := hourlyDate s.1
  mapSet m date ((mapGet m date).getD 0 + s.2.getD 0)

/-- The loop of `aggregateHourlyToDaily` over the samples in order. -/
def buildDailyMap (samples : List (String × Option ℚ)) : List (String × ℚ) :=
  samples.foldl dailyMapStep []

/-- Embeds `function aggregateHourlyToDaily(times, values)` of the client: group by
date, sum, then convert each per-date cm total to two-decimal inches. -/
def aggregateHourlyToDaily (times : List String) (values : List (Option ℚ)) :
    List DailySnowfall :=
  (buildDailyMap (hourlySamples times values)).map fun p =>
    ⟨p.1, round2 (cmToInches p.2)⟩

/-- Per-date cm total of a sample list (`null` as `0`): the specification
the daily map is proved against. -/
def dateTotal (samples : List (String × Option ℚ)) (d : String) : ℚ :=
  ((samples.filter fun s => hourlyDate s.1 = d).map fun s => s.2.getD 0).sum

/-- Embeds `interface ModelForecast` (the `error` field is optional in the source). -/
structure ModelForecast where
  available : Bool
  data : List DailySnowfall
  error : Option String
deriving DecidableEq, Repr

/-- The `daily` block of `interface OpenMeteoModelResponse`; either array may
be missing, and a present array may contain `null` entries. -/
structure OMDailyBlock where
  time : Option (List String)
  snowfall_sum : Option (List (Option ℚ))

/-- The `hourly` block of `interface OpenMeteoModelResponse`. -/
structure OMHourlyBlock where
  time : Option (List String)
  snowfall : Option (List (Option ℚ))

/-- Embeds `interface OpenMeteoModelResponse`. -/
structure OpenMeteoModelResponse where
  daily : Option OMDailyBlock
  hourly : Option OMHourlyBlock

/-- Outcome of one upstream `fetch` + `response.json()`, passed to the
embedded fetch functions as data: a thrown network/parse error with its
message, a non-2xx status, or a parsed body. -/
inductive FetchOutcome where
  | netError (msg : String)
  | httpError (status : ℕ)
  | ok (body : OpenMeteoModelResponse)

/-- Embeds `data.daily.time.map((date, i) => ({date, snowfallInches: round2(cmToInches(snowfall_sum[i] || 0))}))`. -/
def dailyFromBlock (time : List String) (ss : List (Option ℚ)) : List DailySnowfall :=
  time.enum.map fun p => ⟨p.2, round2 (cmToInches (((ss.get? p.1).join).getD 0))⟩

/-- Embeds `fetchGFSForecast` as a function of its fetch outcome: a non-2xx status
throws `Error("GFS API error: <status>")` which the `catch` turns into
`{available:false, data:[], error: message}`; a body without both daily
arrays yields `"No daily data"`; otherwise the mapped daily data. -/
def fetchGFSForecast (o : FetchOutcome) : ModelForecast :=
  match o with
  | .netError msg => ⟨false, [], some msg⟩
  | .httpError status => ⟨false, [], some ("GFS API error: " ++ toString status)⟩
  | .ok body =>
    match body.daily with
    | none => ⟨false, [], some "No daily data"⟩
    | some db =>
      match db.time, db.snowfall_sum with
      | some time, some ss => ⟨true, dailyFromBlock time ss, none⟩
      | _, _ => ⟨false, [], some "No daily data"⟩

/-- Embeds `fetchECMWFForecast`: same contract with its own error prefix. -/
def fetchECMWFForecast (o : FetchOutcome) : ModelForecast :=
  match o with
  | .netError msg => ⟨false, [], some msg⟩
  | .httpError status => ⟨false, [], some ("ECMWF API error: " ++ toString status)⟩
  | .ok body =>
    match body.daily with
    | none => ⟨false, [], some "No daily data"⟩
    | some db =>
      match db.time, db.snowfall_sum with
      | some time, some ss => ⟨true, dailyFromBlock time ss, none⟩
      | _, _ => ⟨false, [], some "No daily data"⟩

/-- Embeds `fetchHRRRForecast`: hourly arrays aggregated to daily. -/
def fetchHRRRForecast (o : FetchOutcome) : ModelForecast :=
  match o with
  | .netError msg => ⟨false, [], some msg⟩
  | .httpError status => ⟨false, [], some ("HRRR API error: " ++ toString status)⟩
  | .ok body =>
    match body.hourly with
    | none => ⟨false, [], some "No hourly data"⟩
    | some hb =>
      match hb.time, hb.snowfall with
      | some time, some sf => ⟨true, aggregateHourlyToDaily time sf, none⟩
      | _, _ => ⟨false, [], some "No hourly data"⟩

/-- Embeds `fetchHistoricalSnowfall`: supplementary, so every failure is an empty
array rather than an availability flag. -/
def fetchHistoricalSnowfall (o : FetchOutcome) : List DailySnowfall :=
  match o with
  | .netError _ => []
  | .httpError _ => []
  | .ok body =>
    match body.daily with
    | none => []
    | some db =>
      match db.time, db.snowfall_sum with
      | some time, some ss => dailyFromBlock time ss
      | _, _ => []

/-- The three model slots of `interface MultiModelResponse`. -/
structure MultiModelModels where
  gfs : ModelForecast
  ecmwf : ModelForecast
  hrrr : ModelForecast
deriving DecidableEq, Repr

/-- Embeds `interface MultiModelResponse`. -/
structure MultiModelResponse where
  models : MultiModelModels
  historical : List DailySnowfall
  fetchedAt : String
deriving DecidableEq, Repr

/-- Embeds `fetchAllModels(lat, lng)` as a function of the four `Promise.all`
sub-fetch outcomes (the date-range arithmetic only shapes the historical
query string and is elided; `fetchedAt = new Date().toISOString()` is a
parameter).  Each sub-fetch catches internally, so the combined call is
total and always returns all three model slots. -/
def fetchAllModels (gfsO ecmwfO hrrrO histO : FetchOutcome) (now : String) :
    MultiModelResponse :=
  { models :=
      { gfs := fetchGFSForecast gfsO
        ecmwf := fetchECMWFForecast ecmwfO
        hrrr := fetchHRRRForecast hrrrO }
    historical := fetchHistoricalSnowfall histO
    fetchedAt := now }

/-- Predicate: "A 200 body carrying both daily arrays, with at least one day": the
success hypothesis of claim C2 for the daily-based models. -/
def validDailyOutcome (o : FetchOutcome) : Prop :=
  ∃ time ss, o = .ok ⟨some ⟨some time, some ss⟩, none⟩ ∧ time ≠ []

/-- Predicate: "A 200 body carrying both hourly arrays, with at least one hour": the
success hypothesis of claim C2 for the hourly-based model. -/
def validHourlyOutcome (o : FetchOutcome) : Prop :=
  ∃ time sf, o = .ok ⟨none, some ⟨some time, some sf⟩⟩ ∧ time ≠ []

/-! ## Forecast transform (`src/lib/weather/transform.ts`, `client.ts`) -/

/-- The fixed `WEATHER_CODE_DESCRIPTIONS` lookup table (WMO-style codes). -/
def weatherCodeDescriptions (code : ℕ) : Option String :=
  match code with
  | 0 => some "Clear sky"
  | 1 => some "Mainly clear"
  | 2 => some "Partly cloudy"
  | 3 => some "Overcast"
  | 45 => some "Fog"
  | 48 => some "Depositing rime fog"
  | 51 => some "Light drizzle"
  | 53 => some "Moderate drizzle"
  | 55 => some "Dense drizzle"
  | 56 => some "Light freezing drizzle"
  | 57 => some "Dense freezing drizzle"
  | 61 => some "Slight rain"
  | 63 => some "Moderate rain"
  | 65 => some "Heavy rain"
  | 66 => some "Light freezing rain"
  | 67 => some "Heavy freezing rain"
  | 71 => some "Slight snow"
  | 73 => some "Moderate snow"
  | 75 => some "Heavy snow"
  | 77 => some "Snow grains"
  | 80 => some "Slight rain showers"
  | 81 => some "Moderate rain showers"
  | 82 => some "Violent rain showers"
  | 85 => some "Slight snow showers"
  | 86 => some "Heavy snow showers"
  | 95 => some "Thunderstorm"
  | 96 => some "Thunderstorm with slight hail"
  | 99 => some "Thunderstorm with heavy hail"
  | _ => none

/-- Embeds `getConditionDescription(code)`: table lookup, `"Unknown"` for a code
outside the table or a missing array entry. -/
def getConditionDescription (code : Option ℕ) : String :=
  (code.bind weatherCodeDescriptions).getD "Unknown"

/-- Embeds `interface OpenMeteoHourly` of `src/lib/weather/client.ts`. -/
structure OpenMeteoHourly where
  time : List String
  temperature_2m : List ℚ
  apparent_temperature : List ℚ
  precipitation : List ℚ
  snowfall : List ℚ
  wind_speed_10m : List ℚ
  wind_gusts_10m : List ℚ
  relative_humidity_2m : List ℚ
  weather_code : List ℕ
  freezing_level_height : List ℚ
  snow_depth : List ℚ

/-- Embeds `interface OpenMeteoDaily` of `src/lib/weather/client.ts`. -/
structure OpenMeteoDaily where
  time : List String
  temperature_2m_max : List ℚ
  temperature_2m_min : List ℚ
  precipitation_sum : List ℚ
  snowfall_sum : List ℚ
  wind_speed_10m_max : List ℚ
  weather_code : List ℕ

/-- Embeds `interface OpenMeteoResponse`. -/
structure OpenMeteoResponse where
  latitude : ℚ
  longitude : ℚ
  timezone : String
  hourly : OpenMeteoHourly
  daily : OpenMeteoDaily

/-- One hourly forecast row as `transformHourlyForecasts` builds it
(`Omit<NewHourlyForecast, "id">`).  `forecastTime` keeps the source
timestamp string (`new Date(time)` construction elided); the numeric fields
keep the numbers whose `.toString()` the source stores. -/
structure HourlyForecastRow where
  snapshotId : String
  forecastTime : String
  tempF : Option ℚ
  feelsLikeF : Option ℚ
  snowInches : Option ℚ
  precipInches : Option ℚ
  windMph : Option ℚ
  gustMph : Option ℚ
  humidityPct : Option ℚ
  conditions : String
  freezingLevelFt : Option ℤ
  snowLevelFt : Option ℤ

/-- Embeds `transformHourlyForecasts(response, snapshotId)`:
`hourly.time.slice(0, 72).map((time, i) => ...)` — at most the first 72
hourly timestamps, in order, each row reading index `i` of the parallel
arrays (`?? null` for a missing entry; `freezingLevelFt` only when the
height is truthy, so a `0` height is `null`). -/
def transformHourlyForecasts (response : OpenMeteoResponse) (snapshotId : String) :
    List HourlyForecastRow :=
  (response.hourly.time.take 72).enum.map fun p =>
    { snapshotId := snapshotId
      forecastTime := p.2
      tempF := response.hourly.temperature_2m.get? p.1
      feelsLikeF := response.hourly.apparent_temperature.get? p.1
      snowInches := response.hourly.snowfall.get? p.1
      precipInches := response.hourly.precipitation.get? p.1
      windMph := response.hourly.wind_speed_10m.get? p.1
      gustMph := response.hourly.wind_gusts_10m.get? p.1
      humidityPct := response.hourly.relative_humidity_2m.get? p.1
      conditions := getConditionDescription (response.hourly.weather_code.get? p.1)
      freezingLevelFt :=
        match response.hourly.freezing_level_height.get? p.1 with
        | some v => if v ≠ 0 then some (metersToFeet v) else none
        | none => none
      snowLevelFt := none }

/-- The `hourly` query parameter list of `fetchForecast`. -/
def fetchForecastHourlyParams : List String :=
  ["temperature_2m", "apparent_temperature", "precipitation", "snowfall",
   "wind_speed_10m", "wind_gusts_10m", "relative_humidity_2m", "weather_code",
   "freezing_level_height", "snow_depth"]

/-- The `daily` query parameter list of `fetchForecast`. -/
def fetchForecastDailyParams : List String :=
  ["temperature_2m_max", "temperature_2m_min", "precipitation_sum",
   "snowfall_sum", "wind_speed_10m_max", "weather_code"]

/-- The query string `fetchForecast` sets on the Open-Meteo URL, as
`(name, value)` pairs in source order — in particular
`url.searchParams.set("forecast_days", "10")`. -/
def fetchForecastQueryParams (latitude longitude timezone : String) :
    List (String × String) :=
  [("latitude", latitude), ("longitude", longitude), ("timezone", timezone),
   ("hourly", String.intercalate "," fetchForecastHourlyParams),
   ("daily", String.intercalate "," fetchForecastDailyParams),
   ("temperature_unit", "fahrenheit"), ("wind_speed_unit", "mph"),
   ("precipitation_unit", "inch"), ("forecast_days", "10")]

/-! ## Ingestion orchestrator (`scraper/src/index.ts`) -/

/-- Outcome of `await scrapeResortConditions(id)` for one resort: the
awaited promise either rejects (a thrown error with a message) or resolves
to `null` / scraped data. -/
inductive ScrapeOutcome where
  | throws (msg : String)
  | returns (r : Option (ScrapedConditions × ScrapedResortInfo))

/-- One row of the queried resort catalog together with the outcomes its
scrape and its two database writes would have (`none` = the write succeeds,
`some msg` = it throws).  The catalog query filters on a non-null
`skiresortinfoId`, but the loop re-checks it, so the model keeps the field
optional. -/
structure ResortTask where
  name : String
  skiresortinfoId : Option String
  scrape : ScrapeOutcome
  conditionsInsert : Option String
  infoUpsert : Option String

/-- The `results` summary object of `runFullScrape`. -/
structure RunResults where
  total : ℕ
  success : ℕ
  failed : ℕ
  skipped : ℕ
  errors : List String
deriving DecidableEq, Repr

/-- Run state: the summary plus which resorts' conditions rows were inserted
and which resorts' info rows were upserted (by resort name). -/
structure RunState where
  results : RunResults
  storedConditions : List String
  storedInfo : List String
deriving DecidableEq, Repr

/-- Embeds `results.failed++; results.errors.push(msg)`. -/
def runFail (st : RunState) (msg : String) : RunState :=
  { st with results := { st.results with
      failed := st.results.failed + 1
      errors := st.results.errors ++ [msg] } }

/-- One iteration of the `for` loop of `runFullScrape`: skip without an
upstream id; a scrape rejection or a `null` return marks the resort failed
with its message; otherwise insert the conditions row, upsert the info row
(either throw is caught by the loop's `catch`, marking the resort failed
after any writes that already happened), and count a success. -/
def runStep (st : RunState) (r : ResortTask) : RunState :=
  match r.skiresortinfoId with
  | none => { st with results := { st.results with skipped := st.results.skipped + 1 } }
  | some _ =>
    match r.scrape with
    | .throws msg => runFail st (r.name ++ ": " ++ msg)
    | .returns none => runFail st (r.name ++ ": Failed to fetch data")
    | .returns (some _) =>
      match r.conditionsInsert with
      | some msg => runFail st (r.name ++ ": " ++ msg)
      | none =>
        let st := { st with storedConditions := st.storedConditions ++ [r.name] }
        match r.infoUpsert with
        | some msg => runFail st (r.name ++ ": " ++ msg)
        | none =>
          { st with
            storedInfo := st.storedInfo ++ [r.name]
            results := { st.results with success := st.results.success + 1 } }

/-- Embeds `runFullScrape` over an already-queried catalog: `results.total` is set
to the catalog length up front, then the loop runs every resort in order
(console output, the 1-second politeness sleep and the final summary print
have no effect on the returned `results`). -/
def runFullScrape (catalog : List ResortTask) : RunState :=
  catalog.foldl runStep
    { results := { total := catalog.length, success := 0, failed := 0, skipped := 0, errors := [] }
      storedConditions := [], storedInfo := [] }

/-- The error message `runFullScrape` records for one resort, `none` when the
resort is skipped or fully succeeds — the claim-side per-resort outcome. -/
def resortError (r : ResortTask) : Option String :=
  match r.skiresortinfoId with
  | none => none
  | some _ =>
    match r.scrape with
    | .throws msg => some (r.name ++ ": " ++ msg)
    | .returns none => some (r.name ++ ": Failed to fetch data")
    | .returns (some _) =>
      match r.conditionsInsert with
      | some msg => some (r.name ++ ": " ++ msg)
      | none =>
        match r.infoUpsert with
        | some msg => some (r.name ++ ": " ++ msg)
        | none => none

/-- The resort is skipped (no upstream id). -/
def resortSkipped (r : ResortTask) : Bool := r.skiresortinfoId.isNone

/-- The resort's conditions row is inserted: id present, scrape returns
data, and the conditions insert does not throw. -/
def resortStoresConditions (r : ResortTask) : Bool :=
  r.skiresortinfoId.isSome &&
  (match r.scrape with
   | .returns (some _) => r.conditionsInsert = none
   | _ => false)

/-- The resort fully succeeds (both writes included). -/
def resortSucceeds (r : ResortTask) : Bool :=
  resortStoresConditions r &&
  (match r.scrape with
   | .returns (some _) => r.infoUpsert = none
   | _ => false)

/-! ## Snow depth fallback (SNOTEL / Open-Meteo) -/

/-- The `SNOTEL_STATES` set. -/
def snotelStates : List String :=
  ["Alaska", "Arizona", "California", "Colorado", "Idaho", "Montana", "Nevada",
   "New Mexico", "Oregon", "Utah", "Washington", "Wyoming", "South Dakota"]

/-- Embeds `isInSnotelCoverage(state)`. -/
def isInSnotelCoverage (state : String) : Bool := snotelStates.contains state

/-- Embeds `interface SnotelSnowDepth`: what `fetchSnotelSnowDepth` resolves to
(when not `null`). -/
structure SnotelSnowDepth where
  snowDepthInches : ℤ
  stationName : String
  distanceKm : ℚ

/-- Embeds `interface SnowDepthFallback`. -/
structure SnowDepthFallback where
  depthInches : ℤ
  source : String
  sourceDetail : String

/-- The `fromSnotel` first half of `getSnowDepthFallback(lat, lng, state)`:
`snotelResult` models `await fetchSnotelSnowDepth(lat, lng)` (already `null`
on its own failures); a reading is used only in a covered state and only
when strictly positive. -/
def snotelFallback (state : String) (snotelResult : Option SnotelSnowDepth) :
    Option SnowDepthFallback :=
  if isInSnotelCoverage state then
    match snotelResult with
    | some s =>
      if s.snowDepthInches > 0 then
        some ⟨s.snowDepthInches, "snotel", s.stationName⟩
      else none
    | none => none
  else none

/-- The Open-Meteo tail of `getSnowDepthFallback`: convert a positive meter
depth to rounded inches, return it only when still positive. -/
def omFallback (openMeteoDepthMeters : Option ℚ) : Option SnowDepthFallback :=
  match openMeteoDepthMeters with
  | some depthMeters =>
    if depthMeters > 0 then
      let depthInches := jsRound (depthMeters * 39.3701)
      if depthInches > 0 then some ⟨depthInches, "open-meteo", "Open-Meteo"⟩
      else none
    else none
  | none => none

/-- Embeds the body of `getSnowDepthFallback`: the SNOTEL result when the
`fromSnotel` half produced one, else the Open-Meteo tail. -/
def getSnowDepthFallback (state : String) (snotelResult : Option SnotelSnowDepth)
    (openMeteoDepthMeters : Option ℚ) : Option SnowDepthFallback :=
  match snotelFallback state snotelResult with
  | some r => some r
  | none => omFallback openMeteoDepthMeters

/-- Predicate: "The SNOTEL path produced a positive reading": covered state and a
non-null station result with strictly positive depth. -/
def snotelPositive (state : String) (snotelResult : Option SnotelSnowDepth) : Bool :=
  isInSnotelCoverage state &&
  (match snotelResult with
   | some s => decide (0 < s.snowDepthInches)
   | none => false)

/-- Predicate: "The Open-Meteo path produced a positive depth": a non-null meter depth
whose rounded-inch conversion is strictly positive. -/
def omPositiveInches (openMeteoDepthMeters : Option ℚ) : Bool :=
  match openMeteoDepthMeters with
  | some m => decide (0 < jsRound (m * 39.3701))
  | none => false

/-! ## Values used in concrete claim instances -/

/-- The all-null / closed conditions record ("nothing found"). -/
def emptyScrapedConditions : ScrapedConditions :=
  { snowDepthSummit := none, snowDepthBase := none, newSnow24h := none,
    newSnow48h := none, newSnow7d := none, liftsOpen := none, liftsTotal := none,
    runsOpen := none, runsTotal := none, terrainOpenKm := none, terrainTotalKm := none,
    terrainOpenPct := none, isOpen := false, seasonStart := none, seasonEnd := none,
    lastSnowfall := none, conditions := none, firstChair := none, lastChair := none }

/-- The all-null resort info record. -/
def emptyScrapedResortInfo : ScrapedResortInfo :=
  { elevationBase := none, elevationSummit := none, verticalDrop := none,
    terrainTotalKm := none, terrainEasyKm := none, terrainIntermediateKm := none,
    terrainDifficultKm := none, terrainEasyPct := none, terrainIntermediatePct := none,
    terrainDifficultPct := none, liftsTotal := none, liftsGondolas := none,
    liftsChairliftsHighSpeed := none, liftsChairliftsFixedGrip := none,
    liftsSurface := none, liftsCarpets := none, runsTotal := none }

/-- Substring containment as a proposition: `pat` occurs contiguously in
`s`.  `strIncludes` is proved to decide exactly this. -/
def StrContains (s pat : String) : Prop :=
  ∃ pre post, s.data = pre ++ pat.data ++ post

/-- Four consecutive hours of one calendar date (claim C4's example). -/
def exHourlyTimes : List String :=
  ["2025-01-01T00:00", "2025-01-01T01:00", "2025-01-01T02:00", "2025-01-01T03:00"]

/-- Hourly snowfall `[1.0, 0.5, null, 2.0]` cm (claim C4's example). -/
def exHourlyValues : List (Option ℚ) := [some 1, some 0.5, none, some 2]

/-- The same four samples in reversed order. -/
def exHourlyTimesRev : List String := exHourlyTimes.reverse

/-- The reversed values, keeping each timestamp paired with its value. -/
def exHourlyValuesRev : List (Option ℚ) := exHourlyValues.reverse

/-- A three-resort catalog where resort B's scrape throws mid-run
(claim C8's example): A and C scrape and store cleanly. -/
def exCatalog3 : List ResortTask :=
  [{ name := "Resort A", skiresortinfoId := some "resort-a",
     scrape := .returns (some (emptyScrapedConditions, emptyScrapedResortInfo)),
     conditionsInsert := none, infoUpsert := none },
   { name := "Resort B", skiresortinfoId := some "resort-b",
     scrape := .throws "connection reset",
     conditionsInsert := none, infoUpsert := none },
   { name := "Resort C", skiresortinfoId := some "resort-c",
     scrape := .returns (some (emptyScrapedConditions, emptyScrapedResortInfo)),
     conditionsInsert := none, infoUpsert := none }]

/-- The run state claim C8 predicts for `exCatalog3`. -/
def exRunState3 : RunState :=
  { results := { total := 3, success := 2, failed := 1, skipped := 0,
                 errors := ["Resort B: connection reset"] }
    storedConditions := ["Resort A", "Resort C"]
    storedInfo := ["Resort A", "Resort C"] }

/-! # Lemmas and claim theorems -/

/-- Correctness of the `startsWith` primitive under the JS semantics. -/
theorem listStartsWith_iff (p : List Char) : ∀ s : List Char,
    listStartsWith s p = true ↔ ∃ r, s = p ++ r := by
  induction p with
  | nil => intro s; simp [listStartsWith]
  | cons c ps ih =>
    intro s
    cases s with
    | nil => simp [listStartsWith]
    | cons a as =>
      simp only [listStartsWith, Bool.and_eq_true, decide_eq_true_eq, ih,
        List.cons_append, List.cons.injEq]
      constructor
      · rintro ⟨rfl, r, rfl⟩; exact ⟨r, rfl, rfl⟩
      · rintro ⟨r, rfl, rfl⟩; exact ⟨rfl, r, rfl⟩

/-- Correctness of the substring primitive: `listContainsSub` decides
contiguous containment. -/
theorem listContainsSub_iff (pat : List Char) : ∀ hay : List Char,
    listContainsSub hay pat = true ↔ ∃ pre post, hay = pre ++ pat ++ post := by
  intro hay
  induction hay with
  | nil =>
    simp only [listContainsSub, listStartsWith_iff]
    constructor
    · rintro ⟨r, hr⟩; exact ⟨[], r, by simpa using hr⟩
    · rintro ⟨pre, post, h⟩
      refine ⟨post, ?_⟩
      rcases List.append_eq_nil.mp h.symm with ⟨h1, h2⟩
      rcases List.append_eq_nil.mp h1 with ⟨rfl, rfl⟩
      simp [h2]
  | cons a as ih =>
    simp only [listContainsSub, Bool.or_eq_true, listStartsWith_iff, ih]
    constructor
    · rintro (⟨r, hr⟩ | ⟨pre, post, hr⟩)
      · exact ⟨[], r, by simpa using hr⟩
      · exact ⟨a :: pre, post, by simp [hr]⟩
    · rintro ⟨pre, post, hr⟩
      cases pre with
      | nil => exact Or.inl ⟨post, by simpa using hr⟩
      | cons x pres =>
        right
        rw [List.cons_append, List.cons_append] at hr
        injection hr with h1 h2
        exact ⟨pres, post, h2⟩

/-- Embeds `s.includes(pat)` decides `StrContains`. -/
theorem strIncludes_iff (s pat : String) :
    strIncludes s pat = true ↔ StrContains s pat :=
  listContainsSub_iff pat.data s.data

/-! ## Claim C5 -/

/-- **C5.** `percentOfLastSeason` equals
`round(currentTotal / lastSeasonToDateTotal * 100)` whenever
`lastSeasonToDateTotal > 0`, and equals exactly `0` when
`lastSeasonToDateTotal = 0`, for every non-negative `currentTotal`.  The
function is total on `ℚ` — the embedding of "never `NaN` or `Infinity`":
the division is only taken under the positivity guard. -/
theorem percentOfLastSeason_spec (currentTotal lastSeasonToDateTotal : ℚ)
    (_hc : 0 ≤ currentTotal) :
    (0 < lastSeasonToDateTotal →
      percentOfLastSeason currentTotal lastSeasonToDateTotal =
        jsRound (currentTotal / lastSeasonToDateTotal * 100)) ∧
    (lastSeasonToDateTotal = 0 →
      percentOfLastSeason currentTotal lastSeasonToDateTotal = 0) := by
  constructor
  · intro hl
    simp [percentOfLastSeason, hl]
  · intro hl
    simp [percentOfLastSeason, hl]

/-- Witness for C5 at concrete inputs: `percentOfLastSeason 50 100 = 50` and
`percentOfLastSeason 50 0 = 0`. -/
theorem percentOfLastSeason_spec_witness :
    percentOfLastSeason 50 100 = 50 ∧ percentOfLastSeason 50 0 = 0 := by
  have h1 := (percentOfLastSeason_spec 50 100 (by norm_num)).1 (by norm_num)
  have h2 := (percentOfLastSeason_spec 50 0 (by norm_num)).2 rfl
  refine ⟨h1.trans ?_, h2⟩
  norm_num [jsRound]

/-! ## Claim C7 -/

/-- **C7 counterexample.** The claim states
`cmToInches(c) = round(c/2.54*10)/10` (one-decimal rounding); the source
converter performs no rounding.  At `c = 1` the code gives
`1/2.54 = 50/127 ≈ 0.3937...` while the claimed value is
`round(10/2.54)/10 = 4/10`. -/
theorem cmToInches_one_not_rounded :
    cmToInches 1 ≠ (jsRound (1 / 2.54 * 10) : ℚ) / 10 := by
  norm_num [cmToInches, jsRound]

/-- **C7 (amended).** `cmToInches(c)` equals `c / 2.54` exactly — the
converter does not round (its call sites apply their own rounding) — and it
is monotonically non-decreasing. -/
theorem cmToInches_exact_and_monotone (c c' : ℚ) (_hc : 0 ≤ c) (hcc : c ≤ c') :
    cmToInches c = c / 2.54 ∧ cmToInches c ≤ cmToInches c' := by
  refine ⟨rfl, ?_⟩
  unfold cmToInches
  apply div_le_div_of_nonneg_right hcc
  norm_num

/-- Witness for the amended C7 at `c = 1`, `c' = 2`. -/
theorem cmToInches_exact_and_monotone_witness :
    cmToInches 1 = 1 / 2.54 ∧ cmToInches 1 ≤ cmToInches 2 :=
  cmToInches_exact_and_monotone 1 2 (by norm_num) (by norm_num)

/-! ## Claim C6 -/

/-- **C6.** The scraped `isOpen` flag is `true` for a page text exactly when
the text contains `"resort is open"` (or `"ski resort is open"`), or it
contains `"lifts"` and `" of "` and does not contain `"0 of"` — the
open-lift-fraction heuristic, with JS `includes` semantics (case-sensitive
contiguous containment). -/
theorem parseConditions_isOpen_iff (html : String) :
    (parseConditions html).isOpen = true ↔
      (StrContains html "resort is open" ∨ StrContains html "ski resort is open" ∨
       (StrContains html "lifts" ∧ StrContains html " of " ∧
        ¬ StrContains html "0 of")) := by
  have hproj : (parseConditions html).isOpen = conditionsIsOpen html := rfl
  rw [hproj]
  simp only [conditionsIsOpen, Bool.or_eq_true, Bool.and_eq_true,
    Bool.not_eq_true', ← Bool.not_eq_true, strIncludes_iff]
  tauto

/-! ## Claim C1 -/

/-- **C1.** `scrapeResortConditions` returns `null` exactly when the
primary-page fetch fails (the function is total, embedding "never throws
past its boundary"); and on a page text with no parseable lift/terrain/snow
text it returns the `{conditions, info}` record with every field `null` and
`isOpen = false` — not `null` and not an exception. -/
theorem scrapeResortConditions_null_iff_fetch_failed
    (primaryPage liftsPage : Option String) :
    (scrapeResortConditions primaryPage liftsPage = none ↔ primaryPage = none) ∧
    scrapeResortConditions (some "No snow report available") none =
      some (emptyScrapedConditions, emptyScrapedResortInfo) := by
  constructor
  · cases primaryPage <;> simp [scrapeResortConditions]
  · decide

/-! ## Claim C3 -/

/-- **C3 counterexample.** On the page text `"18 of 34 lifts"` the total of
an "X of Y lifts" phrase is parseable (the conditions parser extracts it as
`34`), yet `parseResortInfo` leaves the info-side `liftsTotal` at `null`:
its direct-parse pattern accepts only the slash form `"X / Y lifts"`, not
`"X of Y"`. -/
theorem info_liftsTotal_of_phrase_missed :
    (parseConditions "18 of 34 lifts").liftsTotal = some 34 ∧
    (parseResortInfo "18 of 34 lifts").liftsTotal = none := by decide

/-- **C3 (amended).** The scraped info `liftsTotal` precedence, as the code
implements it: first the total of a directly parsed `"X / Y lifts"` phrase
(slash form only — an `"X of Y lifts"` text does not set this field), then a
labeled total (`"number of lifts: N"` / `"lifts: N"`); when the result is
still falsy (`null` or `0`), the sum of the five lift-type component counts
from the lift-breakdown page, if that sum is positive; with none of the
three sources present the field is `null`, and it is never defaulted to
zero. -/
theorem liftsTotal_precedence (main liftsHtml : String) :
    ((parseResortInfo main).liftsTotal = infoLiftsTotal main) ∧
    ((parseLiftDetails liftsHtml (parseResortInfo main)).liftsTotal =
      if jsFalsyInt (infoLiftsTotal main) then
        (if liftComponentTotal (liftsPageTypes liftsHtml (parseResortInfo main)) > 0 then
          some (liftComponentTotal (liftsPageTypes liftsHtml (parseResortInfo main)))
         else infoLiftsTotal main)
      else infoLiftsTotal main) ∧
    (reFirstMatch reLiftsOpenTotal main = none →
      reFirstMatch reLiftsLabeled1 main = none →
      reFirstMatch reLiftsLabeled2 main = none →
      infoLiftsTotal main = none ∧
      (parseLiftDetails liftsHtml (parseResortInfo main)).liftsTotal ≠ some 0 ∧
      (parseResortInfo main).liftsTotal ≠ some 0) := by
  have hbase : (parseResortInfo main).liftsTotal = infoLiftsTotal main := rfl
  have htypes : (liftsPageTypes liftsHtml (parseResortInfo main)).liftsTotal =
      infoLiftsTotal main := rfl
  refine ⟨hbase, ?_, ?_⟩
  · by_cases hf : jsFalsyInt (infoLiftsTotal main) = true
    · by_cases hc : liftComponentTotal (liftsPageTypes liftsHtml (parseResortInfo main)) > 0
      · simp [parseLiftDetails, htypes, hf, hc]
      · simp [parseLiftDetails, htypes, hf, hc]
    · simp [parseLiftDetails, htypes, hf]
  · intro h1 h2 h3
    have hnone : infoLiftsTotal main = none := by
      simp [infoLiftsTotal, h1, h2, h3]
    have hfal : jsFalsyInt (infoLiftsTotal main) = true := by
      simp [jsFalsyInt, hnone]
    refine ⟨hnone, ?_, by simp [hbase, hnone]⟩
    by_cases hc : liftComponentTotal (liftsPageTypes liftsHtml (parseResortInfo main)) > 0
    · simp only [parseLiftDetails, htypes, hfal, if_true, hc]
      intro hcontra
      rw [Option.some.injEq] at hcontra
      omega
    · simp [parseLiftDetails, htypes, hfal, hc, hnone]

/-! ## Claim C4 -/

/-- Embeds `Map.get` after `Map.set`: the set key reads back the set value,
every other key is untouched. -/
theorem mapGet_mapSet (m : List (String × ℚ)) (k : String) (v : ℚ) (d : String) :
    mapGet (mapSet m k v) d = if d = k then some v else mapGet m d := by
  induction m with
  | nil =>
    rcases eq_or_ne d k with rfl | h
    · simp [mapSet, mapGet]
    · simp [mapSet, mapGet, h, Ne.symm h]
  | cons hd tl ih =>
    rcases hd with ⟨k', v'⟩
    by_cases h1 : k' = k
    · subst h1
      rcases eq_or_ne d k' with rfl | h2
      · simp [mapSet, mapGet]
      · simp [mapSet, mapGet, h2, Ne.symm h2]
    · rcases eq_or_ne d k with rfl | h2
      · simp [mapSet, mapGet, h1, Ne.symm (fun hh => h1 hh.symm), ih]
      · rcases eq_or_ne k' d with rfl | h3
        · simp [mapSet, mapGet, h1, h2]
        · simp [mapSet, mapGet, h1, h2, h3, ih]

/-- Per-date total of a cons: the head contributes exactly when its date
matches. -/
theorem dateTotal_cons (s : String × Option ℚ) (rest : List (String × Option ℚ))
    (d : String) :
    dateTotal (s :: rest) d =
      (if hourlyDate s.1 = d then s.2.getD 0 else 0) + dateTotal rest d := by
  by_cases h : hourlyDate s.1 = d
  · simp [dateTotal, List.filter_cons, h]
  · simp [dateTotal, List.filter_cons, h]

/-- The daily-map fold, from any starting map: a date reads back its
starting value plus the per-date total of the samples, and is absent exactly
when it is absent from the start and from the samples. -/
theorem mapGet_foldl_dailyMapStep (samples : List (String × Option ℚ)) :
    ∀ (m : List (String × ℚ)) (d : String),
      mapGet (samples.foldl dailyMapStep m) d =
        if d ∈ samples.map (fun s => hourlyDate s.1) ∨ (mapGet m d).isSome
        then some ((mapGet m d).getD 0 + dateTotal samples d) else none := by
  induction samples with
  | nil =>
    intro m d
    cases h : mapGet m d <;> simp [h, dateTotal]
  | cons s rest ih =>
    intro m d
    rw [List.foldl_cons, ih]
    have hstep : mapGet (dailyMapStep m s) d =
        if d = hourlyDate s.1
        then some ((mapGet m (hourlyDate s.1)).getD 0 + s.2.getD 0)
        else mapGet m d := by
      simp [dailyMapStep, mapGet_mapSet]
    rcases eq_or_ne d (hourlyDate s.1) with heq | hne
    · subst heq
      rw [hstep, if_pos rfl, dateTotal_cons, if_pos rfl]
      simp only [Option.isSome_some, or_true, if_true, Option.getD_some,
        List.map_cons, List.mem_cons, true_or, add_assoc]
    · simp only [hstep, if_neg hne, dateTotal_cons, if_neg (Ne.symm hne), zero_add]
      have hmem : (d ∈ rest.map fun s => hourlyDate s.1) ↔
          (d ∈ (s :: rest).map fun s => hourlyDate s.1) := by
        simp only [List.map_cons, List.mem_cons]
        exact (or_iff_right hne).symm
      exact if_congr (or_congr hmem Iff.rfl) rfl rfl

/-- The daily map built by `aggregateHourlyToDaily`'s loop holds, for every
date, exactly the sum of that date's sample values (`null` as `0`). -/
theorem mapGet_buildDailyMap (samples : List (String × Option ℚ)) (d : String) :
    mapGet (buildDailyMap samples) d =
      if d ∈ samples.map (fun s => hourlyDate s.1)
      then some (dateTotal samples d) else none := by
  have h := mapGet_foldl_dailyMapStep samples [] d
  simp only [mapGet, Option.isSome_none, Bool.false_eq_true, or_false,
    Option.getD_none, zero_add] at h
  exact h

/-- **C4.** Aggregating hourly samples to daily totals groups timestamps by
the date portion (`split("T")[0]`) and sums the values per date with
`null`/missing as `0` — every date's bucket, the partial final day
included, is its per-date sample sum — and the per-date totals are
invariant under any permutation of the `(timestamp, value)` samples. -/
theorem aggregateHourlyToDaily_perm_invariant
    (t1 : List String) (v1 : List (Option ℚ)) (t2 : List String) (v2 : List (Option ℚ))
    (hperm : (hourlySamples t1 v1).Perm (hourlySamples t2 v2)) :
    (∀ d, mapGet (buildDailyMap (hourlySamples t1 v1)) d =
      if d ∈ (hourlySamples t1 v1).map (fun s => hourlyDate s.1)
      then some (dateTotal (hourlySamples t1 v1) d) else none) ∧
    (∀ d, mapGet (buildDailyMap (hourlySamples t1 v1)) d =
      mapGet (buildDailyMap (hourlySamples t2 v2)) d) := by
  refine ⟨fun d => mapGet_buildDailyMap _ d, fun d => ?_⟩
  rw [mapGet_buildDailyMap, mapGet_buildDailyMap]
  have hmem : d ∈ (hourlySamples t1 v1).map (fun s => hourlyDate s.1) ↔
      d ∈ (hourlySamples t2 v2).map (fun s => hourlyDate s.1) :=
    (hperm.map _).mem_iff
  have htot : dateTotal (hourlySamples t1 v1) d = dateTotal (hourlySamples t2 v2) d :=
    List.Perm.sum_eq (((hperm.filter _).map _))
  exact if_congr hmem (by rw [htot]) rfl

/-- Witness for C4 at the claim's example: hourly snowfall
`[1.0, 0.5, null, 2.0]` cm over four hours of `2025-01-01`, against the same
samples in reverse order: the permutation hypothesis holds, the per-date
lookups agree, the bucket sums to `3.5` cm, and the emitted daily row is
`1.38` inches. -/
theorem aggregateHourlyToDaily_perm_invariant_witness :
    (hourlySamples exHourlyTimes exHourlyValues).Perm
      (hourlySamples exHourlyTimesRev exHourlyValuesRev) ∧
    mapGet (buildDailyMap (hourlySamples exHourlyTimes exHourlyValues)) "2025-01-01" =
      mapGet (buildDailyMap (hourlySamples exHourlyTimesRev exHourlyValuesRev)) "2025-01-01" ∧
    mapGet (buildDailyMap (hourlySamples exHourlyTimes exHourlyValues)) "2025-01-01" =
      some 3.5 ∧
    aggregateHourlyToDaily exHourlyTimes exHourlyValues = [⟨"2025-01-01", 1.38⟩] := by
  have hrev : hourlySamples exHourlyTimesRev exHourlyValuesRev =
      (hourlySamples exHourlyTimes exHourlyValues).reverse := rfl
  have hperm : (hourlySamples exHourlyTimes exHourlyValues).Perm
      (hourlySamples exHourlyTimesRev exHourlyValuesRev) := by
    rw [hrev]; exact (List.reverse_perm _).symm
  have hb : buildDailyMap (hourlySamples exHourlyTimes exHourlyValues) =
      [("2025-01-01", 0 + 1 + 0.5 + 0 + 2)] := rfl
  have hget : mapGet (buildDailyMap (hourlySamples exHourlyTimes exHourlyValues))
      "2025-01-01" = some 3.5 := by
    rw [hb]
    show some (0 + 1 + 0.5 + 0 + 2 : ℚ) = some 3.5
    norm_num
  refine ⟨hperm,
    (aggregateHourlyToDaily_perm_invariant exHourlyTimes exHourlyValues
      exHourlyTimesRev exHourlyValuesRev hperm).2 "2025-01-01",
    hget, ?_⟩
  rw [aggregateHourlyToDaily, hb]
  show [(⟨"2025-01-01", round2 (cmToInches (0 + 1 + 0.5 + 0 + 2))⟩ : DailySnowfall)] = _
  have : round2 (cmToInches (0 + 1 + 0.5 + 0 + 2)) = 1.38 := by
    have h35 : (0 + 1 + 0.5 + 0 + 2 : ℚ) = 3.5 := by norm_num
    rw [h35, round2, cmToInches, jsRound]
    have hfl : ⌊(3.5 / 2.54 * 100 : ℚ) + 1 / 2⌋ = 138 := by
      rw [Int.floor_eq_iff]
      norm_num
    rw [hfl]
    norm_num
  rw [this]

/-! ## Claim C2 -/

/-- A daily payload built from at least one day is non-empty. -/
theorem dailyFromBlock_ne_nil (time : List String) (ss : List (Option ℚ))
    (h : time ≠ []) : dailyFromBlock time ss ≠ [] := by
  intro hc
  apply h
  have hlen := congrArg List.length hc
  simp only [dailyFromBlock, List.length_map, List.enum_length,
    List.length_nil] at hlen
  exact List.length_eq_zero.mp hlen

/-- Embeds `Map.set` never empties the map. -/
theorem mapSet_ne_nil (m : List (String × ℚ)) (k : String) (v : ℚ) :
    mapSet m k v ≠ [] := by
  cases m with
  | nil => simp [mapSet]
  | cons a l =>
    rcases a with ⟨k', v'⟩
    simp only [mapSet]
    split_ifs <;> simp

/-- The aggregation fold never empties a non-empty map. -/
theorem foldl_dailyMapStep_ne_nil (samples : List (String × Option ℚ)) :
    ∀ m : List (String × ℚ), m ≠ [] → samples.foldl dailyMapStep m ≠ [] := by
  induction samples with
  | nil => intro m hm; simpa using hm
  | cons s rest ih =>
    intro m hm
    rw [List.foldl_cons]
    exact ih _ (mapSet_ne_nil _ _ _)

/-- At least one sample produces at least one daily bucket. -/
theorem buildDailyMap_ne_nil (samples : List (String × Option ℚ))
    (h : samples ≠ []) : buildDailyMap samples ≠ [] := by
  rcases samples with _ | ⟨s, rest⟩
  · exact absurd rfl h
  · unfold buildDailyMap
    rw [List.foldl_cons]
    exact foldl_dailyMapStep_ne_nil rest _ (mapSet_ne_nil _ _ _)

/-- At least one hourly timestamp produces at least one daily row. -/
theorem aggregateHourlyToDaily_ne_nil (time : List String) (values : List (Option ℚ))
    (h : time ≠ []) : aggregateHourlyToDaily time values ≠ [] := by
  unfold aggregateHourlyToDaily
  intro hc
  refine buildDailyMap_ne_nil (hourlySamples time values) ?_ (List.map_eq_nil.mp hc)
  intro hs
  apply h
  have hlen := congrArg List.length hs
  simp only [hourlySamples, List.length_map, List.enum_length, List.length_nil] at hlen
  exact List.length_eq_zero.mp hlen

/-- A valid daily outcome yields an available slot with non-empty data and
no error. -/
theorem fetchGFSForecast_valid (o : FetchOutcome) (h : validDailyOutcome o) :
    (fetchGFSForecast o).available = true ∧ (fetchGFSForecast o).data ≠ [] := by
  rcases h with ⟨time, ss, rfl, htime⟩
  exact ⟨rfl, dailyFromBlock_ne_nil time ss htime⟩

/-- Embeds the same for the ECMWF slot. -/
theorem fetchECMWFForecast_valid (o : FetchOutcome) (h : validDailyOutcome o) :
    (fetchECMWFForecast o).available = true ∧ (fetchECMWFForecast o).data ≠ [] := by
  rcases h with ⟨time, ss, rfl, htime⟩
  exact ⟨rfl, dailyFromBlock_ne_nil time ss htime⟩

/-- Embeds the same for the hourly-based HRRR slot. -/
theorem fetchHRRRForecast_valid (o : FetchOutcome) (h : validHourlyOutcome o) :
    (fetchHRRRForecast o).available = true ∧ (fetchHRRRForecast o).data ≠ [] := by
  rcases h with ⟨time, sf, rfl, htime⟩
  exact ⟨rfl, aggregateHourlyToDaily_ne_nil time sf htime⟩

/-- **C2.** `fetchAllModels` never rejects (it is a total function of its
sub-fetch outcomes and always returns all three model slots); when exactly
one of the three model fetches fails with HTTP 500 while the other two
succeed with populated payloads, the response has exactly one slot with
`available = false` carrying a non-empty error string, and the other two
slots are `available = true` with non-empty `data` arrays. -/
theorem fetchAllModels_isolates_failure (gfsO ecmwfO hrrrO histO : FetchOutcome)
    (now : String)
    (hcase :
      (gfsO = .httpError 500 ∧ validDailyOutcome ecmwfO ∧ validHourlyOutcome hrrrO) ∨
      (validDailyOutcome gfsO ∧ ecmwfO = .httpError 500 ∧ validHourlyOutcome hrrrO) ∨
      (validDailyOutcome gfsO ∧ validDailyOutcome ecmwfO ∧ hrrrO = .httpError 500)) :
    (([(fetchAllModels gfsO ecmwfO hrrrO histO now).models.gfs,
       (fetchAllModels gfsO ecmwfO hrrrO histO now).models.ecmwf,
       (fetchAllModels gfsO ecmwfO hrrrO histO now).models.hrrr].countP
         fun m => !m.available) = 1) ∧
    (∀ m ∈ [(fetchAllModels gfsO ecmwfO hrrrO histO now).models.gfs,
            (fetchAllModels gfsO ecmwfO hrrrO histO now).models.ecmwf,
            (fetchAllModels gfsO ecmwfO hrrrO histO now).models.hrrr],
      (m.available = false → ∃ e, m.error = some e ∧ e ≠ "") ∧
      (m.available = true → m.data ≠ [])) := by
  have hgfs500 : fetchGFSForecast (.httpError 500) =
      ⟨false, [], some "GFS API error: 500"⟩ := rfl
  have hecmwf500 : fetchECMWFForecast (.httpError 500) =
      ⟨false, [], some "ECMWF API error: 500"⟩ := rfl
  have hhrrr500 : fetchHRRRForecast (.httpError 500) =
      ⟨false, [], some "HRRR API error: 500"⟩ := rfl
  rcases hcase with ⟨rfl, he, hh⟩ | ⟨hg, rfl, hh⟩ | ⟨hg, he, rfl⟩
  · rcases fetchECMWFForecast_valid _ he with ⟨hea, hed⟩
    rcases fetchHRRRForecast_valid _ hh with ⟨hha, hhd⟩
    constructor
    · simp [fetchAllModels, hgfs500, List.countP_cons, hea, hha]
    · intro m hm
      simp only [fetchAllModels, List.mem_cons, List.not_mem_nil, or_false] at hm
      rcases hm with rfl | rfl | rfl
      · refine ⟨fun _ => ⟨"GFS API error: 500", ?_, by decide⟩, fun hav => ?_⟩
        · rw [hgfs500]
        · rw [hgfs500] at hav
          exact absurd hav (by decide)
      · refine ⟨fun hav => ?_, fun _ => hed⟩
        rw [hea] at hav
        exact absurd hav (by decide)
      · refine ⟨fun hav => ?_, fun _ => hhd⟩
        rw [hha] at hav
        exact absurd hav (by decide)
  · rcases fetchGFSForecast_valid _ hg with ⟨hga, hgd⟩
    rcases fetchHRRRForecast_valid _ hh with ⟨hha, hhd⟩
    constructor
    · simp [fetchAllModels, hecmwf500, List.countP_cons, hga, hha]
    · intro m hm
      simp only [fetchAllModels, List.mem_cons, List.not_mem_nil, or_false] at hm
      rcases hm with rfl | rfl | rfl
      · refine ⟨fun hav => ?_, fun _ => hgd⟩
        rw [hga] at hav
        exact absurd hav (by decide)
      · refine ⟨fun _ => ⟨"ECMWF API error: 500", ?_, by decide⟩, fun hav => ?_⟩
        · rw [hecmwf500]
        · rw [hecmwf500] at hav
          exact absurd hav (by decide)
      · refine ⟨fun hav => ?_, fun _ => hhd⟩
        rw [hha] at hav
        exact absurd hav (by decide)
  · rcases fetchGFSForecast_valid _ hg with ⟨hga, hgd⟩
    rcases fetchECMWFForecast_valid _ he with ⟨hea, hed⟩
    constructor
    · simp [fetchAllModels, hhrrr500, List.countP_cons, hga, hea]
    · intro m hm
      simp only [fetchAllModels, List.mem_cons, List.not_mem_nil, or_false] at hm
      rcases hm with rfl | rfl | rfl
      · refine ⟨fun hav => ?_, fun _ => hgd⟩
        rw [hga] at hav
        exact absurd hav (by decide)
      · refine ⟨fun hav => ?_, fun _ => hed⟩
        rw [hea] at hav
        exact absurd hav (by decide)
      · refine ⟨fun _ => ⟨"HRRR API error: 500", ?_, by decide⟩, fun hav => ?_⟩
        · rw [hhrrr500]
        · rw [hhrrr500] at hav
          exact absurd hav (by decide)

/-- Witness for C2 at concrete inputs: GFS returns HTTP 500, ECMWF and HRRR
return one-entry payloads; the response counts exactly one unavailable slot
and every slot satisfies the error/data dichotomy. -/
theorem fetchAllModels_isolates_failure_witness :
    (([(fetchAllModels (.httpError 500)
          (.ok ⟨some ⟨some ["2025-01-01"], some [some 1]⟩, none⟩)
          (.ok ⟨none, some ⟨some ["2025-01-01T00:00"], some [some 1]⟩⟩)
          (.httpError 500) "2025-01-02T00:00:00Z").models.gfs,
       (fetchAllModels (.httpError 500)
          (.ok ⟨some ⟨some ["2025-01-01"], some [some 1]⟩, none⟩)
          (.ok ⟨none, some ⟨some ["2025-01-01T00:00"], some [some 1]⟩⟩)
          (.httpError 500) "2025-01-02T00:00:00Z").models.ecmwf,
       (fetchAllModels (.httpError 500)
          (.ok ⟨some ⟨some ["2025-01-01"], some [some 1]⟩, none⟩)
          (.ok ⟨none, some ⟨some ["2025-01-01T00:00"], some [some 1]⟩⟩)
          (.httpError 500) "2025-01-02T00:00:00Z").models.hrrr].countP
         fun m => !m.available) = 1) := by
  exact (fetchAllModels_isolates_failure (.httpError 500)
    (.ok ⟨some ⟨some ["2025-01-01"], some [some 1]⟩, none⟩)
    (.ok ⟨none, some ⟨some ["2025-01-01T00:00"], some [some 1]⟩⟩)
    (.httpError 500) "2025-01-02T00:00:00Z"
    (Or.inl ⟨rfl, ⟨["2025-01-01"], [some 1], rfl, by simp⟩,
      ⟨["2025-01-01T00:00"], [some 1], rfl, by simp⟩⟩)).1

/-! ## Claim C8 -/

/-- Characterization of the orchestrator loop from any starting state: the
final counts, error list and stored lists are the starting ones extended by
one elementwise contribution per catalog entry — one resort's outcome never
influences another's. -/
theorem runFoldl_char (catalog : List ResortTask) : ∀ st : RunState,
    catalog.foldl runStep st =
      { results :=
          { total := st.results.total
            success := st.results.success + catalog.countP resortSucceeds
            failed := st.results.failed + (catalog.filterMap resortError).length
            skipped := st.results.skipped + catalog.countP resortSkipped
            errors := st.results.errors ++ catalog.filterMap resortError }
        storedConditions := st.storedConditions ++
          (catalog.filter resortStoresConditions).map ResortTask.name
        storedInfo := st.storedInfo ++
          (catalog.filter resortSucceeds).map ResortTask.name } := by
  induction catalog with
  | nil => intro st; simp
  | cons r rest ih =>
    intro st
    rw [List.foldl_cons, ih]
    rcases r with ⟨name, id, scrape, ci, iu⟩
    rcases id with _ | idv
    · simp [runStep, runFail, resortError, resortSkipped, resortStoresConditions,
        resortSucceeds, RunState.mk.injEq, RunResults.mk.injEq] <;> omega
    · rcases scrape with msg | data
      · simp [runStep, runFail, resortError, resortSkipped, resortStoresConditions,
          resortSucceeds, RunState.mk.injEq, RunResults.mk.injEq] <;> omega
      · rcases data with _ | d
        · simp [runStep, runFail, resortError, resortSkipped, resortStoresConditions,
            resortSucceeds, RunState.mk.injEq, RunResults.mk.injEq] <;> omega
        · rcases ci with _ | cimsg
          · rcases iu with _ | iumsg
            · simp [runStep, runFail, resortError, resortSkipped,
                resortStoresConditions, resortSucceeds, RunState.mk.injEq,
                RunResults.mk.injEq] <;> omega
            · simp [runStep, runFail, resortError, resortSkipped,
                resortStoresConditions, resortSucceeds, RunState.mk.injEq,
                RunResults.mk.injEq] <;> omega
          · simp [runStep, runFail, resortError, resortSkipped,
              resortStoresConditions, resortSucceeds, RunState.mk.injEq,
              RunResults.mk.injEq] <;> omega

/-- Every resort is exactly one of: succeeded, failed-with-message, or
skipped. -/
theorem resort_outcome_partition (catalog : List ResortTask) :
    catalog.countP resortSucceeds + (catalog.filterMap resortError).length +
      catalog.countP resortSkipped = catalog.length := by
  induction catalog with
  | nil => simp
  | cons r rest ih =>
    rcases r with ⟨name, id, scrape, ci, iu⟩
    rcases id with _ | idv
    · simp [resortError, resortSkipped, resortStoresConditions, resortSucceeds] <;>
        omega
    · rcases scrape with msg | data
      · simp [resortError, resortSkipped, resortStoresConditions, resortSucceeds] <;>
          omega
      · rcases data with _ | d
        · simp [resortError, resortSkipped, resortStoresConditions, resortSucceeds] <;>
            omega
        · rcases ci with _ | cimsg
          · rcases iu with _ | iumsg
            · simp [resortError, resortSkipped, resortStoresConditions,
                resortSucceeds] <;> omega
            · simp [resortError, resortSkipped, resortStoresConditions,
                resortSucceeds] <;> omega
          · simp [resortError, resortSkipped, resortStoresConditions,
              resortSucceeds] <;> omega

/-- **C8.** An error thrown while scraping or writing one resort marks only
that resort as failed and the run continues: the final state is the
elementwise combination of per-resort outcomes (so total = catalog length,
success + failed + skipped = total, one captured per-resort error message
per failure, and exactly the cleanly-processed resorts are stored); on the
concrete 3-resort catalog where resort B's scrape throws, the run yields
`{total: 3, success: 2, failed: 1, skipped: 0}` with the error message
naming resort B, and resorts A and C stored. -/
theorem runFullScrape_isolates_failures (catalog : List ResortTask) :
    (runFullScrape catalog).results.total = catalog.length ∧
    (runFullScrape catalog).results.success + (runFullScrape catalog).results.failed +
      (runFullScrape catalog).results.skipped = (runFullScrape catalog).results.total ∧
    (runFullScrape catalog).results.errors = catalog.filterMap resortError ∧
    (runFullScrape catalog).results.failed = (catalog.filterMap resortError).length ∧
    (runFullScrape catalog).storedConditions =
      (catalog.filter resortStoresConditions).map ResortTask.name ∧
    (runFullScrape catalog).storedInfo =
      (catalog.filter resortSucceeds).map ResortTask.name ∧
    runFullScrape exCatalog3 = exRunState3 := by
  have hchar := runFoldl_char catalog
    ⟨⟨catalog.length, 0, 0, 0, []⟩, [], []⟩
  have hrun : runFullScrape catalog =
      { results :=
          { total := catalog.length
            success := catalog.countP resortSucceeds
            failed := (catalog.filterMap resortError).length
            skipped := catalog.countP resortSkipped
            errors := catalog.filterMap resortError }
        storedConditions := (catalog.filter resortStoresConditions).map ResortTask.name
        storedInfo := (catalog.filter resortSucceeds).map ResortTask.name } := by
    unfold runFullScrape
    rw [hchar]
    simp
  rw [hrun]
  refine ⟨rfl, ?_, rfl, rfl, rfl, rfl, by decide⟩
  simpa using resort_outcome_partition catalog

/-! ## Claim C9 -/

/-- **C9.** `transformHourlyForecasts` returns at most 72 hourly rows: it
maps exactly the first `min(length, 72)` hourly timestamps in input order
(the rows' `forecastTime`s are precisely `hourly.time.slice(0, 72)`), even
though the forecast fetch requests 10 days (240 hours) of hourly data
(`forecast_days=10` in the query). -/
theorem transformHourlyForecasts_cap72 (response : OpenMeteoResponse)
    (snapshotId latitude longitude timezone : String) :
    (transformHourlyForecasts response snapshotId).length =
      min response.hourly.time.length 72 ∧
    (transformHourlyForecasts response snapshotId).map HourlyForecastRow.forecastTime =
      response.hourly.time.take 72 ∧
    ("forecast_days", "10") ∈ fetchForecastQueryParams latitude longitude timezone := by
  refine ⟨?_, ?_, by simp [fetchForecastQueryParams]⟩
  · simp [transformHourlyForecasts, List.length_take, Nat.min_comm]
  · rw [transformHourlyForecasts, List.map_map]
    exact List.enum_map_snd _

/-! ## Claim C10 -/

/-- **C10.** `getSnowDepthFallback` never returns a reading with
`depthInches ≤ 0`: every non-null result has a strictly positive
`depthInches`; a result with source `"open-meteo"` is returned only when the
SNOTEL path produced no positive reading (state outside coverage, or no
positive SNOTEL depth); and when neither source yields a positive depth the
result is `null`. -/
theorem getSnowDepthFallback_spec (state : String)
    (snotelResult : Option SnotelSnowDepth) (openMeteoDepthMeters : Option ℚ) :
    (∀ r, getSnowDepthFallback state snotelResult openMeteoDepthMeters = some r →
      0 < r.depthInches ∧
      (r.source = "open-meteo" → snotelPositive state snotelResult = false)) ∧
    (snotelPositive state snotelResult = false →
      omPositiveInches openMeteoDepthMeters = false →
      getSnowDepthFallback state snotelResult openMeteoDepthMeters = none) := by
  have hom_some : ∀ r, omFallback openMeteoDepthMeters = some r →
      0 < r.depthInches ∧ r.source = "open-meteo" := by
    rintro r hr
    rcases openMeteoDepthMeters with _ | m
    · simp [omFallback] at hr
    · simp only [omFallback] at hr
      split_ifs at hr with hm hj
      cases hr
      exact ⟨hj, rfl⟩
  have hom_none : omPositiveInches openMeteoDepthMeters = false →
      omFallback openMeteoDepthMeters = none := by
    intro h2
    rcases openMeteoDepthMeters with _ | m
    · rfl
    · simp only [omPositiveInches, decide_eq_false_iff_not, not_lt] at h2
      simp only [omFallback]
      split_ifs with hm hj
      · omega
      · rfl
      · rfl
  have hsn_some : ∀ r, snotelFallback state snotelResult = some r →
      0 < r.depthInches ∧ r.source = "snotel" := by
    rintro r hr
    unfold snotelFallback at hr
    by_cases hcov : isInSnotelCoverage state
    · rw [if_pos hcov] at hr
      rcases snotelResult with _ | s
      · simp at hr
      · simp only at hr
        split_ifs at hr with hs
        cases hr
        exact ⟨hs, rfl⟩
    · rw [if_neg hcov] at hr
      simp at hr
  have hsn_none_of : snotelPositive state snotelResult = false →
      snotelFallback state snotelResult = none := by
    intro h1
    unfold snotelFallback
    by_cases hcov : isInSnotelCoverage state
    · rw [if_pos hcov]
      rcases snotelResult with _ | s
      · rfl
      · simp only [snotelPositive, hcov, Bool.true_and,
          decide_eq_false_iff_not, not_lt] at h1
        simp only
        rw [if_neg (by omega)]
    · rw [if_neg hcov]
  have hsn_pos_of : ∀ r, snotelFallback state snotelResult = some r →
      snotelPositive state snotelResult = true := by
    rintro r hr
    unfold snotelFallback at hr
    by_cases hcov : isInSnotelCoverage state
    · rw [if_pos hcov] at hr
      rcases snotelResult with _ | s
      · simp at hr
      · simp only at hr
        split_ifs at hr with hs
        simp [snotelPositive, hcov, hs]
    · rw [if_neg hcov] at hr
      simp at hr
  constructor
  · rintro r hr
    unfold getSnowDepthFallback at hr
    cases hsn : snotelFallback state snotelResult with
    | some r' =>
      rw [hsn] at hr
      simp only [Option.some.injEq] at hr
      subst hr
      rcases hsn_some r' hsn with ⟨hpos, hsrc⟩
      refine ⟨hpos, fun hcontra => ?_⟩
      rw [hsrc] at hcontra
      exact absurd hcontra (by decide)
    | none =>
      rw [hsn] at hr
      simp only at hr
      rcases hom_some r hr with ⟨hpos, _⟩
      refine ⟨hpos, fun _ => ?_⟩
      by_contra hne
      cases hp : snotelPositive state snotelResult with
      | false => exact hne hp
      | true =>
        -- a positive SNOTEL reading forces the snotel branch, contradicting hsn
        unfold snotelPositive at hp
        rcases snotelResult with _ | s
        · simp at hp
        · simp only [Bool.and_eq_true, decide_eq_true_eq] at hp
          unfold snotelFallback at hsn
          rw [if_pos hp.1] at hsn
          simp only at hsn
          rw [if_pos hp.2] at hsn
          exact absurd hsn (by simp)
  · intro h1 h2
    unfold getSnowDepthFallback
    rw [hsn_none_of h1]
    exact hom_none h2

end ProjectSnow
